import Mathlib

/-!
Verification of the c4_rust compiler/VM (src/c4_rust_Alqattara/src/lib.rs).

This file gives a shallow embedding of the lexer (`next`), the parser /
code emitter (`expression`, `statement`, `function`, `program`), the
virtual machine (`run`) and the driver (`compile_and_run`) of the Rust
source, and proves properties of the embedding corresponding to the
frozen claims about the program.

Modelling conventions:
* The Rust `C4` struct is split into `LexState` (the fields read/written
  by the lexer `next`: src, pos, line, token, token_val, current_id,
  data, symbols, expr_type) and `ParseState` (adds the text segment and
  index_of_bp).  `next` in the Rust source never touches the text
  segment, so giving it the type `LexState → Out LexState` makes that
  fact structural.
* `process::exit(1)` sites (every error site in lib.rs uses exit code 1)
  are modelled by the `Out.err` constructor carrying the error kind and
  the current line number.
* Loops without a source-level iteration bound are defined with an
  explicit fuel parameter; exhaustion yields the distinguished `Out.fuel`
  result so no theorem can mistake a fuel shortfall for real behaviour.
  Loops that the Rust source itself bounds (the `program` loop with
  max_iterations = 10000, the VM loop with max_cycles = 1000000, the
  parameter loop with max_loops = 100, the statement loop with
  max_statements = 1000) use exactly the source bound.
* Machine integers are modelled as `Int`; the VM's arithmetic opcodes
  wrap to 32 bits (`wrap32`, two's complement), division truncates
  toward zero (`Int.tdiv`/`Int.tmod`) as in Rust.
-/

namespace c4

/-! ## Token codes (enum TokenType, lib.rs 49-88; discriminants Num = 128,
    Float = 257, then consecutive) -/

def TNum : Int := 128
def TFloat : Int := 257
def TFun : Int := 258
def TSys : Int := 259
def TGlo : Int := 260
def TLoc : Int := 261
def TId : Int := 262
def TChar : Int := 263
def TElse : Int := 264
def TEnum : Int := 265
def TIf : Int := 266
def TInt : Int := 267
def TReturn : Int := 268
def TSizeof : Int := 269
def TWhile : Int := 270
def TAssign : Int := 271
def TCond : Int := 272
def TLor : Int := 273
def TLan : Int := 274
def TOr : Int := 275
def TXor : Int := 276
def TAnd : Int := 277
def TEq : Int := 278
def TNe : Int := 279
def TLt : Int := 280
def TGt : Int := 281
def TLe : Int := 282
def TGe : Int := 283
def TShl : Int := 284
def TShr : Int := 285
def TAdd : Int := 286
def TSub : Int := 287
def TMul : Int := 288
def TDiv : Int := 289
def TMod : Int := 290
def TInc : Int := 291
def TDec : Int := 292
def TBrak : Int := 293

/-! ## VM instruction codes (enum Instruction, lib.rs 104-149,
    discriminants from 0) -/

def iLEA : Int := 0
def iIMM : Int := 1
def iJMP : Int := 2
def iJSR : Int := 3
def iBZ : Int := 4
def iBNZ : Int := 5
def iENT : Int := 6
def iADJ : Int := 7
def iLEV : Int := 8
def iLI : Int := 9
def iLC : Int := 10
def iSI : Int := 11
def iSC : Int := 12
def iPUSH : Int := 13
def iOR : Int := 14
def iXOR : Int := 15
def iAND : Int := 16
def iEQ : Int := 17
def iNE : Int := 18
def iLT : Int := 19
def iGT : Int := 20
def iLE : Int := 21
def iGE : Int := 22
def iSHL : Int := 23
def iSHR : Int := 24
def iADD : Int := 25
def iSUB : Int := 26
def iMUL : Int := 27
def iDIV : Int := 28
def iMOD : Int := 29
def iOPEN : Int := 30
def iREAD : Int := 31
def iCLOS : Int := 32
def iPRINTF : Int := 33
def iMALLOC : Int := 34
def iMSET : Int := 35
def iMCMP : Int := 36
def iEXIT : Int := 37
def iFLD : Int := 38

/-! ## Type codes and expression precedence levels (lib.rs 170-173 and
    2849-2871) -/

def tyCHAR : Int := 0
def tyINT : Int := 1
def tyPTR : Int := 2
def tyFLOAT : Int := 3

def pAssign : Int := 0
def pCond : Int := 1
def pLor : Int := 2
def pLan : Int := 3
def pOr : Int := 4
def pXor : Int := 5
def pAnd : Int := 6
def pEq : Int := 7
def pNe : Int := 8
def pLt : Int := 9
def pGt : Int := 10
def pLe : Int := 11
def pGe : Int := 12
def pShl : Int := 13
def pShr : Int := 14
def pAdd : Int := 15
def pSub : Int := 16
def pMul : Int := 17
def pDiv : Int := 18
def pMod : Int := 19
def pInc : Int := 20
def pDec : Int := 21
def pBrak : Int := 22

/-! ## Basic data: symbols, lexer state, outcomes -/

/-- A symbol-table entry (struct Symbol, lib.rs 153-163).  Names are byte
    lists; `cls` is the Rust field `class`. -/
structure Symbol where
  token : Int
  hash : Int
  name : List Nat
  cls : Int
  type_ : Int
  value : Int
  bclass : Int
  btype : Int
  bvalue : Int
deriving Repr, DecidableEq, Inhabited

/-- The fields of the Rust `C4` struct read or written by the lexer
    `next` (lib.rs 188-232): source bytes, cursor, line counter, the
    current-token rendezvous, the data segment (string literals are
    written there), the symbol table (identifier lookup), and expr_type
    (written by `new_float_constant`). -/
structure LexState where
  src : List Nat
  pos : Nat
  line : Int
  token : Int
  tokenVal : Int
  currentId : List Nat
  data : List Int
  symbols : List Symbol
  exprType : Int
deriving Repr, DecidableEq

/-- Error kinds; every error site in lib.rs is a println followed by
    `process::exit(1)`, so each carries the reported line number and the
    whole process terminates with exit status 1. -/
inductive CErr where
  | invalidFloat (line : Int)
  | unterminatedChar (line : Int)
  | unterminatedString (line : Int)
  | expectedToken (line : Int)
  | undefinedVariable (line : Int)
  | invalidVariable (line : Int)
  | invalidArrayAccess (line : Int)
  | invalidDereference (line : Int)
  | invalidAddressOf (line : Int)
  | invalidExpression (line : Int)
deriving Repr, DecidableEq

/-- The process exit status produced by an error: every error site in
    lib.rs calls `process::exit(1)`. -/
def CErr.exitStatus : CErr → Int := fun _ => 1

/-- Outcome of a compiler-side computation: a value, a process exit via
    `process::exit(1)` (`err`), or exhaustion of the modelling fuel
    (`fuel`, never produced by the Rust source; kept distinct so that
    theorems about `ok`/`err` outcomes cannot be satisfied vacuously). -/
inductive Out (α : Type) where
  | ok (a : α)
  | err (e : CErr)
  | fuel
deriving Repr, DecidableEq

def Out.bind {α β : Type} : Out α → (α → Out β) → Out β
  | .ok a, f => f a
  | .err e, _ => .err e
  | .fuel, _ => .fuel

def Out.map {α β : Type} (f : α → β) : Out α → Out β
  | .ok a => .ok (f a)
  | .err e => .err e
  | .fuel => .fuel

instance : Monad Out where
  pure := Out.ok
  bind := Out.bind
  map := Out.map

def Out.isOk {α : Type} : Out α → Bool
  | .ok _ => true
  | _ => false

/-! ## Byte-level helpers (the Rust source operates on `Vec<u8>`) -/

def strBytes (s : String) : List Nat := s.data.map Char.toNat

/-- `u8::is_ascii_whitespace`: space, tab, newline, carriage return,
    form feed. -/
def isWs (b : Nat) : Bool := b = 32 || b = 9 || b = 10 || b = 13 || b = 12

def isAlphaB (b : Nat) : Bool := (65 ≤ b && b ≤ 90) || (97 ≤ b && b ≤ 122)

def isDigitB (b : Nat) : Bool := 48 ≤ b && b ≤ 57

def isAlnumB (b : Nat) : Bool := isAlphaB b || isDigitB b

/-- `u8::is_ascii_punctuation`. -/
def isPunctB (b : Nat) : Bool :=
  (33 ≤ b && b ≤ 47) || (58 ≤ b && b ≤ 64) || (91 ≤ b && b ≤ 96) || (123 ≤ b && b ≤ 126)

/-- Indexing a byte list; every use mirrors a Rust index that is guarded
    by a bounds check in the source. -/
def at_ (src : List Nat) (p : Nat) : Nat := src.getD p 0

/-! ## The lexer `next` (lib.rs 269-620) -/

/-- Skip to the next newline: the inner `while` loops of the `#` and `//`
    branches (lib.rs 286-288 and 293-295).  Structural recursion on the
    exact measure `src.length - p`: the loop advances p by one per
    iteration, so the counter reaches 0 exactly when `p ≥ src.length`,
    where the loop condition is false anyway. -/
def skipLineGo (src : List Nat) : Nat → Nat → Nat
  | 0, p => p
  | fuel + 1, p =>
    if p < src.length ∧ at_ src p ≠ 10 then skipLineGo src fuel (p + 1) else p

def skipLine (src : List Nat) (p : Nat) : Nat := skipLineGo src (src.length - p) p

theorem skipLineGo_ge (src : List Nat) : ∀ (fuel p : Nat), p ≤ skipLineGo src fuel p := by
  intro fuel
  induction fuel with
  | zero => intro p; exact Nat.le_refl p
  | succ n ih =>
    intro p
    simp only [skipLineGo]
    split
    · exact Nat.le_trans (Nat.le_succ p) (ih (p + 1))
    · exact Nat.le_refl p

theorem skipLine_ge (src : List Nat) (p : Nat) : p ≤ skipLine src p :=
  skipLineGo_ge src (src.length - p) p

/-- The block-comment scan (lib.rs 300-306): advance until `*/` or until
    `pos + 1` reaches the end, counting newlines.  Returns the new
    position and line counter.  Same exact-fuel scheme as `skipLineGo`. -/
def skipBlockGo (src : List Nat) : Nat → Nat → Int → Nat × Int
  | 0, p, line => (p, line)
  | fuel + 1, p, line =>
    if p + 1 < src.length ∧ ¬(at_ src p = 42 ∧ at_ src (p + 1) = 47) then
      skipBlockGo src fuel (p + 1) (if at_ src p = 10 then line + 1 else line)
    else (p, line)

def skipBlock (src : List Nat) (p : Nat) (line : Int) : Nat × Int :=
  skipBlockGo src (src.length - p) p line

theorem skipBlockGo_ge (src : List Nat) :
    ∀ (fuel p : Nat) (line : Int), p ≤ (skipBlockGo src fuel p line).1 := by
  intro fuel
  induction fuel with
  | zero => intro p line; exact Nat.le_refl p
  | succ n ih =>
    intro p line
    simp only [skipBlockGo]
    split
    · exact Nat.le_trans (Nat.le_succ p) (ih (p + 1) _)
    · exact Nat.le_refl p

theorem skipBlock_ge (src : List Nat) (p : Nat) (line : Int) :
    p ≤ (skipBlock src p line).1 :=
  skipBlockGo_ge src (src.length - p) p line

/-- Result of the whitespace/comment-skipping loop at the top of `next`
    (lib.rs 273-319): end of source (token set to 0), or positioned at a
    byte to lex. -/
inductive SkipRes where
  | eof (ls : LexState)
  | found (ch : Nat) (ls : LexState)

/-- The body of the skipping loop of `next` (lib.rs 273-319), in the
    source's branch order: end-of-source, newline (bump line, consumed
    as whitespace), `#` directive, `//` comment, `/*` comment
    (unterminated comments are silently consumed: the `pos += 2` after
    the scan happens only when a closing `*/` fits), other whitespace,
    else stop at the byte.  Structurally recursive on a fuel
    counter.  Each continuing iteration advances the cursor by at least
    one (the `#`/`//` branches via `skipLine_ge` starting at a byte that
    is not a newline, the `/*` branch via `skipBlock_ge` after skipping
    two bytes), so with the fuel `src.length + 1 - pos` used by `skipWs`
    the counter reaches 0 only when `pos` already exceeds the source,
    where the loop would report end-of-source anyway — which is exactly
    the fuel-0 result. -/
def skipWsGo : Nat → LexState → SkipRes
  | 0, ls => .eof { ls with token := 0 }
  | fuel + 1, ls =>
    if ls.src.length ≤ ls.pos then .eof { ls with token := 0 }
    else if at_ ls.src ls.pos = 10 then
      skipWsGo fuel { ls with line := ls.line + 1, pos := ls.pos + 1 }
    else if at_ ls.src ls.pos = 35 then
      skipWsGo fuel { ls with pos := skipLine ls.src ls.pos }
    else if at_ ls.src ls.pos = 47 ∧ ls.pos + 1 < ls.src.length ∧
        at_ ls.src (ls.pos + 1) = 47 then
      skipWsGo fuel { ls with pos := skipLine ls.src ls.pos }
    else if at_ ls.src ls.pos = 47 ∧ ls.pos + 1 < ls.src.length ∧
        at_ ls.src (ls.pos + 1) = 42 then
      skipWsGo fuel { ls with
        pos := if (skipBlock ls.src (ls.pos + 2) ls.line).1 + 1 < ls.src.length then
            (skipBlock ls.src (ls.pos + 2) ls.line).1 + 2
          else (skipBlock ls.src (ls.pos + 2) ls.line).1,
        line := (skipBlock ls.src (ls.pos + 2) ls.line).2 }
    else if isWs (at_ ls.src ls.pos) then
      skipWsGo fuel { ls with pos := ls.pos + 1 }
    else .found (at_ ls.src ls.pos) ls

/-- The whitespace/comment-skipping loop of `next` (lib.rs 273-319). -/
def skipWs (ls : LexState) : SkipRes := skipWsGo (ls.src.length + 1 - ls.pos) ls

/-- Identifier scan (lib.rs 325-329): collect alphanumeric/underscore
    bytes, returning them and the new cursor.  Exact-fuel recursion on
    `src.length - p` as in `skipLineGo`. -/
def identScanGo (src : List Nat) : Nat → Nat → List Nat × Nat
  | 0, p => ([], p)
  | fuel + 1, p =>
    if p < src.length ∧ (isAlnumB (at_ src p) || at_ src p = 95) = true then
      let r := identScanGo src fuel (p + 1)
      (at_ src p :: r.1, r.2)
    else ([], p)

def identScan (src : List Nat) (p : Nat) : List Nat × Nat :=
  identScanGo src (src.length - p) p

/-- Identifier / keyword branch of `next` (lib.rs 322-358). -/
def lexIdent (ls : LexState) : LexState :=
  let r := identScan ls.src ls.pos
  let id := r.1
  let ls := { ls with currentId := id, pos := r.2, token := TId }
  if id = strBytes "char" then { ls with token := TChar }
  else if id = strBytes "else" then { ls with token := TElse }
  else if id = strBytes "enum" then { ls with token := TEnum }
  else if id = strBytes "if" then { ls with token := TIf }
  else if id = strBytes "int" then { ls with token := TInt }
  else if id = strBytes "return" then { ls with token := TReturn }
  else if id = strBytes "sizeof" then { ls with token := TSizeof }
  else if id = strBytes "while" then { ls with token := TWhile }
  else
    match ls.symbols.find? (fun s => s.name = id) with
    | some s => { ls with token := s.token, tokenVal := s.value }
    | none => ls

/-- Hex digit scan of the `0x` branch (lib.rs 377-385), exact-fuel
    recursion on `src.length - p`. -/
def hexScanGo (src : List Nat) : Nat → Nat → Int → Int × Nat
  | 0, p, acc => (acc, p)
  | fuel + 1, p, acc =>
    if p < src.length then
      let c := at_ src p
      if 48 ≤ c ∧ c ≤ 57 then hexScanGo src fuel (p + 1) (acc * 16 + ((c : Int) - 48))
      else if 97 ≤ c ∧ c ≤ 102 then hexScanGo src fuel (p + 1) (acc * 16 + ((c : Int) - 87))
      else if 65 ≤ c ∧ c ≤ 70 then hexScanGo src fuel (p + 1) (acc * 16 + ((c : Int) - 55))
      else (acc, p)
    else (acc, p)

def hexScan (src : List Nat) (p : Nat) (acc : Int) : Int × Nat :=
  hexScanGo src (src.length - p) p acc

/-- Decimal/float scan (lib.rs 391-408): returns accumulated value,
    new position, the float flag, and the collected buffer.  Exact-fuel
    recursion on `src.length - p`. -/
def decScanGo (src : List Nat) : Nat → Nat → Int → Bool → Bool → List Nat →
    Int × Nat × Bool × List Nat
  | 0, p, tv, _, isFloat, buf => (tv, p, isFloat, buf)
  | fuel + 1, p, tv, seenDot, isFloat, buf =>
    if p < src.length then
      let c := at_ src p
      if c = 46 ∧ seenDot = false then
        decScanGo src fuel (p + 1) tv true true (buf ++ [46])
      else if isDigitB c then
        decScanGo src fuel (p + 1) (if isFloat then tv else tv * 10 + ((c : Int) - 48))
          seenDot isFloat (buf ++ [c])
      else (tv, p, isFloat, buf)
    else (tv, p, isFloat, buf)

def decScan (src : List Nat) (p : Nat) (tv : Int) (seenDot isFloat : Bool)
    (buf : List Nat) : Int × Nat × Bool × List Nat :=
  decScanGo src (src.length - p) p tv seenDot isFloat buf

/-- Whether `String::from_utf8_lossy(&buffer).parse::<f64>()` succeeds;
    buffers here consist of an optional leading `-`, digits, and at most
    one dot, for which Rust's f64 parser succeeds iff at least one digit
    is present. -/
def floatParseOk (buf : List Nat) : Bool := buf.any isDigitB

/-- The two 32-bit words of the f64 bit pattern stored by
    `new_float_constant` (lib.rs 2777-2787).  No claim depends on
    floating-point bit patterns; the words are modelled as zeros. -/
def f64Words : List Nat → Int × Int := fun _ => (0, 0)

/-- Number branch of `next` (lib.rs 361-426), entered at a digit, a dot,
    or a `-` immediately followed by a digit or dot.  The `-` is folded
    into the literal; note that the negation at line 420-422 is applied
    only on the decimal path, not after the hex return at line 387. -/
def lexNumber (ls : LexState) : Out LexState :=
  let ch := at_ ls.src ls.pos
  -- handle negative sign (lib.rs 366-370)
  let st :=
    if ch = 45 then (List.cons 45 [], ls.pos + 1, at_ ls.src (ls.pos + 1))
    else (([] : List Nat), ls.pos, ch)
  let buf0 := st.1
  let p0 := st.2.1
  let c0 := st.2.2
  -- hex numbers (lib.rs 373-388); returns without consulting the buffer
  if c0 = 48 ∧ p0 + 1 < ls.src.length ∧ (at_ ls.src (p0 + 1) = 120 ∨ at_ ls.src (p0 + 1) = 88) then
    let r := hexScan ls.src (p0 + 2) 0
    .ok { ls with tokenVal := r.1, pos := r.2, token := TNum }
  else
    -- decimal or float (lib.rs 391-424)
    let r := decScan ls.src p0 0 false false buf0
    let tv := r.1
    let p1 := r.2.1
    let isFloat := r.2.2.1
    let buf := r.2.2.2
    if isFloat then
      if floatParseOk buf then
        let w := f64Words buf
        let idx := ls.data.length
        .ok { ls with data := ls.data ++ [w.1, w.2], exprType := tyFLOAT,
                      token := TFloat, tokenVal := (idx : Int), pos := p1 }
      else .err (.invalidFloat ls.line)
    else
      .ok { ls with tokenVal := if buf.headD 0 = 45 then -tv else tv,
                    token := TNum, pos := p1 }

/-- Character-literal branch of `next` (lib.rs 429-458). -/
def lexCharLit (ls : LexState) : Out LexState :=
  let p := ls.pos + 1
  let r :=
    if p < ls.src.length ∧ at_ ls.src p = 92 then
      let p2 := p + 1
      if p2 < ls.src.length then
        (match at_ ls.src p2 with
          | 110 => (10 : Int)
          | 116 => 9
          | 114 => 13
          | 48 => 0
          | c => (c : Int), p2)
      else (ls.tokenVal, p2)
    else if p < ls.src.length then ((at_ ls.src p : Int), p)
    else (ls.tokenVal, p)
  let p3 := r.2 + 1
  if p3 < ls.src.length ∧ at_ ls.src p3 = 39 then
    .ok { ls with pos := p3 + 1, token := TNum, tokenVal := r.1 }
  else .err (.unterminatedChar ls.line)

/-- The string-body scan (lib.rs 465-483): bytes pushed to the data
    segment, with escapes `\n \t \r \0` and otherwise the literal byte.
    Fuel recursion on `src.length - p` (the cursor advances by one or
    two per iteration, so the fuel cannot run out before `p` leaves the
    source, where the loop stops anyway). -/
def strScanGo (src : List Nat) : Nat → Nat → List Int → List Int × Nat
  | 0, p, acc => (acc, p)
  | fuel + 1, p, acc =>
    if p < src.length ∧ at_ src p ≠ 34 then
      if at_ src p = 92 then
        let p2 := p + 1
        let acc2 :=
          if p2 < src.length then
            acc ++ [match at_ src p2 with
              | 110 => (10 : Int)
              | 116 => 9
              | 114 => 13
              | 48 => 0
              | c => (c : Int)]
          else acc
        strScanGo src fuel (p2 + 1) acc2
      else strScanGo src fuel (p + 1) (acc ++ [(at_ src p : Int)])
    else (acc, p)

def strScan (src : List Nat) (p : Nat) (acc : List Int) : List Int × Nat :=
  strScanGo src (src.length - p) p acc

/-- String-literal branch of `next` (lib.rs 461-495). -/
def lexStrLit (ls : LexState) : Out LexState :=
  let dataIdx := ls.data.length
  let r := strScan ls.src (ls.pos + 1) []
  if r.2 < ls.src.length ∧ at_ ls.src r.2 = 34 then
    .ok { ls with pos := r.2 + 1, data := ls.data ++ r.1 ++ [0],
                  token := TNum, tokenVal := (dataIdx : Int) }
  else .err (.unterminatedString ls.line)

/-- Operator branch of `next` (lib.rs 498-619).  The final `_` arm of
    the Rust match prints a warning for non-punctuation bytes but sets
    the token to the byte and advances either way, so both sub-arms
    collapse to one case here. -/
def lexOp (ch : Nat) (ls : LexState) : LexState :=
  if ch = 61 then
    let p := ls.pos + 1
    if p < ls.src.length ∧ at_ ls.src p = 61 then { ls with pos := p + 1, token := TEq }
    else { ls with pos := p, token := 61 }
  else if ch = 43 then
    if ls.pos + 1 < ls.src.length ∧ at_ ls.src (ls.pos + 1) = 43 then
      { ls with pos := ls.pos + 2, token := TInc }
    else { ls with pos := ls.pos + 1, token := 43 }
  else if ch = 45 then
    if ls.pos + 1 < ls.src.length ∧ at_ ls.src (ls.pos + 1) = 45 then
      { ls with pos := ls.pos + 2, token := TDec }
    else { ls with pos := ls.pos + 1, token := 45 }
  else if ch = 33 then
    let p := ls.pos + 1
    if p < ls.src.length ∧ at_ ls.src p = 61 then { ls with pos := p + 1, token := TNe }
    else { ls with pos := p, token := 33 }
  else if ch = 60 then
    let p := ls.pos + 1
    if p < ls.src.length ∧ at_ ls.src p = 61 then { ls with pos := p + 1, token := TLe }
    else if p < ls.src.length ∧ at_ ls.src p = 60 then { ls with pos := p + 1, token := TShl }
    else { ls with pos := p, token := 60 }
  else if ch = 62 then
    let p := ls.pos + 1
    if p < ls.src.length ∧ at_ ls.src p = 61 then { ls with pos := p + 1, token := TGe }
    else if p < ls.src.length ∧ at_ ls.src p = 62 then { ls with pos := p + 1, token := TShr }
    else { ls with pos := p, token := 62 }
  else if ch = 124 then
    let p := ls.pos + 1
    if p < ls.src.length ∧ at_ ls.src p = 124 then { ls with pos := p + 1, token := TLor }
    else { ls with pos := p, token := 124 }
  else if ch = 38 then
    let p := ls.pos + 1
    if p < ls.src.length ∧ at_ ls.src p = 38 then { ls with pos := p + 1, token := TLan }
    else { ls with pos := p, token := 38 }
  else
    -- single-byte operators and the default arm all set token := ch and
    -- advance by one (lib.rs 577-618)
    { ls with pos := ls.pos + 1, token := (ch : Int) }

/-- The lexer `next` (lib.rs 269-620): skip whitespace/comments, then
    dispatch on the first byte in the same order as the source
    (identifier, number with sign folding, char literal, string literal,
    operator). -/
def next (ls : LexState) : Out LexState :=
  match skipWs ls with
  | .eof ls' => .ok ls'
  | .found ch ls =>
    if isAlphaB ch || ch = 95 then .ok (lexIdent ls)
    else if isDigitB ch || ch = 46 ||
        (ch = 45 && decide (ls.pos + 1 < ls.src.length) &&
          (isDigitB (at_ ls.src (ls.pos + 1)) || at_ ls.src (ls.pos + 1) = 46)) then
      lexNumber ls
    else if ch = 39 then lexCharLit ls
    else if ch = 34 then lexStrLit ls
    else .ok (lexOp ch ls)

/-! ## Parser / code emitter (lib.rs 626-1833) -/

/-- The parser-visible compiler state: the lexer state plus the text
    segment and index_of_bp (the remaining fields of the Rust `C4`
    struct are the VM registers, handled separately by `run`). -/
structure ParseState where
  lex : LexState
  text : List Int
  indexOfBp : Int
deriving Repr, DecidableEq

def ParseState.push (st : ParseState) (xs : List Int) : ParseState :=
  { st with text := st.text ++ xs }

def ParseState.doNext (st : ParseState) : Out ParseState :=
  (next st.lex).map (fun ls => { st with lex := ls })

def ParseState.setType (st : ParseState) (t : Int) : ParseState :=
  { st with lex := { st.lex with exprType := t } }

def ParseState.pushSym (st : ParseState) (s : Symbol) : ParseState :=
  { st with lex := { st.lex with symbols := st.lex.symbols ++ [s] } }

/-- `match_token` (lib.rs 626-642): mismatch prints and exits the
    process, otherwise advance. -/
def matchTok (expected : Int) (st : ParseState) : Out ParseState :=
  if st.lex.token ≠ expected then .err (.expectedToken st.lex.line)
  else st.doNext

/-- The `while token == '*'` pointer-star loops (lexer token 42) of
    `function` and `program`. -/
def stars : Nat → Int → LexState → Out (Int × LexState)
  | 0, _, _ => .fuel
  | f + 1, t, ls =>
    if ls.token = 42 then do
      let ls' ← next ls
      stars f (t + tyPTR) ls'
    else .ok (t, ls)

/-- The `while self.token == TokenType::Mul` loops in the cast and
    sizeof branches of `expression` (lib.rs 795-798, 936-939).  The
    lexer emits `*` as byte 42, never as TokenType::Mul = 288, so these
    loops never iterate; mirrored as written. -/
def castStars : Nat → Int → LexState → Out (Int × LexState)
  | 0, _, _ => .fuel
  | f + 1, t, ls =>
    if ls.token = TMul then do
      let ls' ← next ls
      castStars f (t + tyPTR) ls'
    else .ok (t, ls)

mutual

/-- Parser/emitter `expression` (lib.rs 656-1326).  Every arm of the
    primary `match` at lib.rs 673-963 ends in `return` (or exits the
    process), so the precedence-climbing tail at lib.rs 965-1325 is
    unreachable; the `level` argument is kept for the call sites but is
    never consulted. -/
def expression : Nat → Int → ParseState → Out (Int × ParseState)
  | 0, _, _ => .fuel
  | f + 1, _level, st =>
    let t := st.lex.token
    if t = TNum then
      -- number literal (lib.rs 674-680): sets the type and returns the
      -- value; nothing is appended to the text segment
      let st := st.setType tyINT
      let tmp := st.lex.tokenVal
      do
        let st ← st.doNext
        return (tmp, st)
    else if t = TFloat then
      -- float literal (lib.rs 681-688)
      let st := st.push [iIMM, st.lex.tokenVal, iFLD]
      let st := st.setType tyFLOAT
      do
        let st ← st.doNext
        return (0, st)
    else if t = TId then
      -- identifier: call or variable (lib.rs 689-788)
      let id := st.lex.currentId
      match st.lex.symbols.findIdx? (fun s => s.name = id) with
      | none => .err (.undefinedVariable st.lex.line)
      | some idx => do
        let st ← st.doNext
        if st.lex.token = 40 then
          -- function or system call (lib.rs 710-743)
          let st ← matchTok 40 st
          let r ← exprArgs f 0 st
          let argc := r.1
          let st ← matchTok 41 r.2
          let sym := st.lex.symbols.getD idx default
          let st :=
            if sym.cls = TSys then st.push [sym.value]
            else st.push [iJSR, sym.value]
          let st := if argc > 0 then st.push [iADJ, argc] else st
          let st := st.setType sym.type_
          return (tyINT, st)
        else
          -- variable (lib.rs 744-787)
          let sym := st.lex.symbols.getD idx default
          let st ←
            if sym.cls = TLoc then pure (st.push [iLEA, st.indexOfBp - sym.value])
            else if sym.cls = TGlo then pure (st.push [iIMM, sym.value])
            else Out.err (.invalidVariable st.lex.line)
          let st := st.setType sym.type_
          if st.lex.token = 91 then
            -- array access (lib.rs 760-784); note the Rust code tests
            -- self.expr_type after parsing the index expression
            let st ← matchTok 91 st
            let r ← expression f pAssign st
            let st ← matchTok 93 r.2
            let st ←
              if st.lex.exprType > tyPTR then
                pure (st.push [iPUSH, iIMM, 4, iMUL, iADD])
              else if st.lex.exprType < tyPTR then
                Out.err (.invalidArrayAccess st.lex.line)
              else pure st
            let st :=
              if st.lex.exprType = tyCHAR + tyPTR then (st.push [iLC]).setType tyCHAR
              else (st.push [iLI]).setType tyINT
            return (tyINT, st)
          else return (tyINT, st)
    else if t = 40 then
      -- cast or parenthesised expression (lib.rs 789-809)
      do
        let st ← matchTok 40 st
        if st.lex.token = TInt ∨ st.lex.token = TChar then
          let castType := if st.lex.token = TInt then tyINT else tyCHAR
          let st ← st.doNext
          let r ← castStars f castType st.lex
          let st := { st with lex := r.2 }
          let castType := r.1
          let st ← matchTok 41 st
          let r2 ← expression f pInc st
          let st := r2.2.setType castType
          return (tyINT, st)
        else
          let r ← expression f pAssign st
          let st ← matchTok 41 r.2
          return (r.1, st)
    else if t = 42 then
      -- dereference (lib.rs 810-830)
      do
        let st ← st.doNext
        let r ← expression f pInc st
        let st := r.2
        if st.lex.exprType ≥ tyPTR then
          let st := st.setType (st.lex.exprType - tyPTR)
          let st := if st.lex.exprType = tyCHAR then st.push [iLC] else st.push [iLI]
          return (tyINT, st)
        else Out.err (.invalidDereference st.lex.line)
    else if t = 38 then
      -- address-of (lib.rs 831-843)
      do
        let st ← st.doNext
        let r ← expression f pInc st
        let st := r.2
        if st.lex.token = TInc ∨ st.lex.token = TDec then
          Out.err (.invalidAddressOf st.lex.line)
        else
          let st := st.setType (st.lex.exprType + tyPTR)
          return (tyINT, st)
    else if t = 33 then
      -- logical not (lib.rs 844-854)
      do
        let st ← st.doNext
        let r ← expression f pInc st
        let st := (r.2.push [iPUSH, iIMM, 0, iEQ]).setType tyINT
        return (tyINT, st)
    else if t = 126 then
      -- bitwise not (lib.rs 855-864); expr_type is not updated here
      do
        let st ← st.doNext
        let r ← expression f pInc st
        let st := r.2.push [iPUSH, iIMM, -1, iXOR]
        return (tyINT, st)
    else if t = 45 then
      -- unary minus (lib.rs 865-874); expr_type is not updated here
      do
        let st ← st.doNext
        let r ← expression f pInc st
        let st := r.2.push [iPUSH, iIMM, 0, iSUB]
        return (tyINT, st)
    else if t = TInc then
      -- pre-increment (lib.rs 875-900)
      do
        let st ← st.doNext
        let r ← expression f pInc st
        let st := r.2
        let st :=
          if st.lex.exprType > tyPTR then st.push [iPUSH, iIMM, 4, iADD]
          else st.push [iPUSH, iIMM, 1, iADD]
        let st := if st.lex.exprType = tyCHAR then st.push [iSC] else st.push [iSI]
        return (tyINT, st)
    else if t = TDec then
      -- pre-decrement (lib.rs 901-926)
      do
        let st ← st.doNext
        let r ← expression f pInc st
        let st := r.2
        let st :=
          if st.lex.exprType > tyPTR then st.push [iPUSH, iIMM, 4, iSUB]
          else st.push [iPUSH, iIMM, 1, iSUB]
        let st := if st.lex.exprType = tyCHAR then st.push [iSC] else st.push [iSI]
        return (tyINT, st)
    else if t = TSizeof then
      -- sizeof (lib.rs 927-958)
      do
        let st ← st.doNext
        let st ← matchTok 40 st
        if st.lex.token = TInt ∨ st.lex.token = TChar then
          let sizeType := if st.lex.token = TInt then tyINT else tyCHAR
          let st ← st.doNext
          let r ← castStars f sizeType st.lex
          let st := { st with lex := r.2 }
          let sizeType := r.1
          let st ← matchTok 41 st
          let st := (st.push [iIMM, if sizeType = tyCHAR then 1 else 4]).setType tyINT
          return (tyINT, st)
        else
          let r ← expression f pAssign st
          let st ← matchTok 41 r.2
          let st := (st.push [iIMM, if st.lex.exprType = tyCHAR then 1 else 4]).setType tyINT
          return (tyINT, st)
    else .err (.invalidExpression st.lex.line)

/-- The call-argument loop of `expression` (lib.rs 714-724). -/
def exprArgs : Nat → Int → ParseState → Out (Int × ParseState)
  | 0, _, _ => .fuel
  | f + 1, argc, st =>
    if st.lex.token ≠ 41 then do
      let r ← expression f pAssign st
      let st := r.2.push [iPUSH]
      let argc := argc + 1
      if st.lex.token = 41 then .ok (argc, st)
      else do
        let st ← matchTok 44 st
        exprArgs f argc st
    else .ok (argc, st)

/-- `statement` (lib.rs 1332-1452). -/
def statement : Nat → ParseState → Out ParseState
  | 0, _ => .fuel
  | f + 1, st =>
    if st.lex.token = TIf then do
      -- if statement (lib.rs 1337-1370)
      let st ← matchTok TIf st
      let st ← matchTok 40 st
      let r ← expression f pAssign st
      let st ← matchTok 41 r.2
      let elseJmp := st.text.length
      let st := st.push [iBZ, 0]
      let st ← statement f st
      let endJmp := st.text.length
      let st := st.push [iJMP, 0]
      let st := { st with text := st.text.set (elseJmp + 1) (st.text.length : Int) }
      let st ←
        if st.lex.token = TElse then do
          let st ← matchTok TElse st
          statement f st
        else pure st
      return { st with text := st.text.set (endJmp + 1) (st.text.length : Int) }
    else if st.lex.token = TWhile then do
      -- while statement (lib.rs 1371-1397)
      let st ← matchTok TWhile st
      let loopStart := st.text.length
      let st ← matchTok 40 st
      let r ← expression f pAssign st
      let st ← matchTok 41 r.2
      let endJmp := st.text.length
      let st := st.push [iBZ, 0]
      let st ← statement f st
      let st := st.push [iJMP, (loopStart : Int)]
      return { st with text := st.text.set (endJmp + 1) (st.text.length : Int) }
    else if st.lex.token = TReturn then do
      -- return statement (lib.rs 1398-1418)
      let st ← matchTok TReturn st
      let st ←
        if st.lex.token ≠ 59 then do
          let r ← expression f pAssign st
          pure r.2
        else pure (st.push [iIMM, 0])
      let st ← matchTok 59 st
      return st.push [iLEV]
    else if st.lex.token = 123 then do
      -- block (lib.rs 1419-1438)
      let st ← matchTok 123 st
      let st ← stmtSeq f st
      if st.lex.token = 0 then return st.push [iIMM, 0, iLEV]
      else matchTok 125 st
    else if st.lex.token = 59 then
      -- empty statement (lib.rs 1439-1442)
      matchTok 59 st
    else do
      -- expression statement (lib.rs 1443-1448)
      let r ← expression f pAssign st
      matchTok 59 r.2

/-- The statement loop of a block (lib.rs 1424-1427). -/
def stmtSeq : Nat → ParseState → Out ParseState
  | 0, _ => .fuel
  | f + 1, st =>
    if st.lex.token ≠ 125 ∧ st.lex.token ≠ 0 then do
      let st ← statement f st
      stmtSeq f st
    else .ok st

end

/-- Result of the parameter loop of `function`: either the Rust `return`
    at lib.rs 1511-1514 fired (abandoning the whole function), or the
    loop finished normally. -/
inductive FunLoopRes where
  | earlyReturn (st : ParseState)
  | done (paramCount localOffset : Int) (st : ParseState)

/-- The parameter loop of `function` (lib.rs 1499-1560), bounded by
    max_loops = 100. -/
def funParams : Nat → Int → Int → Int → ParseState → Out FunLoopRes
  | 0, _, _, _, _ => .fuel
  | f + 1, loopCount, paramCount, localOffset, st =>
    let loopCount := loopCount + 1
    if loopCount > 100 then .ok (.done paramCount localOffset st)
    else if st.lex.token = 0 then .ok (.earlyReturn st)
    else do
      let ty := if st.lex.token = TInt then tyINT else tyCHAR
      let st ← st.doNext
      let r ← stars f ty st.lex
      let st := { st with lex := r.2 }
      let ty := r.1
      if st.lex.token ≠ TId then .ok (.done paramCount localOffset st)
      else
        let paramCount := paramCount + 1
        let st := st.pushSym ⟨TId, 0, st.lex.currentId, TLoc, ty, paramCount, 0, 0, 0⟩
        let localOffset := localOffset + 4
        do
          let st ← st.doNext
          if st.lex.token = 41 then .ok (.done paramCount localOffset st)
          else if st.lex.token ≠ 44 then .ok (.done paramCount localOffset st)
          else do
            let st ← st.doNext
            funParams f loopCount paramCount localOffset st

/-- The local-declaration loop of `function` (lib.rs 1583-1623). -/
def funLocals : Nat → Int → Int → ParseState → Out (Int × Int × ParseState)
  | 0, _, _, _ => .fuel
  | f + 1, localVarCount, localOffset, st =>
    if st.lex.token = TInt ∨ st.lex.token = TChar then do
      let ty := if st.lex.token = TInt then tyINT else tyCHAR
      let st ← st.doNext
      let r ← stars f ty st.lex
      let st := { st with lex := r.2 }
      let ty := r.1
      if st.lex.token ≠ TId then .ok (localVarCount, localOffset, st)
      else
        let localVarCount := localVarCount + 1
        let st := st.pushSym ⟨TId, 0, st.lex.currentId, TLoc, ty, localOffset, 0, 0, 0⟩
        let localOffset := localOffset + 4
        do
          let st ← st.doNext
          if st.lex.token = 59 then do
            let st ← st.doNext
            funLocals f localVarCount localOffset st
          else .ok (localVarCount, localOffset, st)
    else .ok (localVarCount, localOffset, st)

/-- The statement loop of a function body (lib.rs 1629-1633), bounded by
    max_statements = 1000. -/
def funStmts : Nat → Int → ParseState → Out ParseState
  | 0, _, _ => .fuel
  | f + 1, count, st =>
    if st.lex.token ≠ 125 ∧ st.lex.token ≠ 0 ∧ count < 1000 then do
      let st ← statement f st
      funStmts f (count + 1) st
    else .ok st

/-- `function` (lib.rs 1458-1657).  Early `return`s leave the state
    as-is; control returns to the program loop. -/
def function (f : Nat) (st : ParseState) : Out ParseState := do
  let ty := if st.lex.token = TInt then tyINT else tyCHAR
  let st ← st.doNext
  let r ← stars f ty st.lex
  let st : ParseState := { st with lex := r.2 }
  if st.lex.token ≠ TId then return st
  let st ← st.doNext
  if st.lex.token ≠ 40 then return st
  let st ← st.doNext
  let functionEntry := st.text.length
  let st := st.push [iENT, 0]
  let pr ←
    if st.lex.token ≠ 41 then funParams f 0 0 8 st
    else pure (.done 0 8 st)
  match pr with
  | .earlyReturn st => return st
  | .done _ localOffset st =>
    if st.lex.token = 0 then return st
    let st ← st.doNext
    if st.lex.token = 123 then do
      let st ← st.doNext
      let r2 ← funLocals f 0 localOffset st
      let localVarCount := r2.1
      let st := r2.2.2
      let st : ParseState :=
        { st with text := st.text.set (functionEntry + 1) (localVarCount * 4) }
      let st ← funStmts f 0 st
      let st :=
        if st.text.getD (st.text.length - 1) 0 ≠ iLEV then st.push [iIMM, 0, iLEV]
        else st
      if st.lex.token = 125 then st.doNext
      else return st
    else return st

/-- The skip-to-`}` loop of the hard-coded main branch (lib.rs
    1769-1771).  Operates on the lexer state only, so it cannot touch
    the text segment. -/
def mainSkip : Nat → LexState → Out LexState
  | 0, _ => .fuel
  | f + 1, ls =>
    if ls.token ≠ 125 ∧ ls.token ≠ 0 then do
      let ls' ← next ls
      mainSkip f ls'
    else .ok ls

/-- The special-case branch of `program` for a function named `main`
    (lib.rs 1736-1774): record the symbol, consume `( ) {`, emit the
    fixed body `IMM, 42, LEV`, then skip the source body without code
    generation. -/
def mainSymState (varType : Int) (name : List Nat) (st : ParseState) : ParseState :=
  if ¬ st.lex.symbols.any (fun s => decide (s.name = name)) then
    st.pushSym ⟨TId, 0, name, TFun, varType, (st.text.length : Int), 0, 0, 0⟩
  else st

def mainSpecial (f : Nat) (varType : Int) (name : List Nat) (st : ParseState) :
    Out ParseState := do
  let st := mainSymState varType name st
  let st ← matchTok 40 st
  let st ← matchTok 41 st
  let st ← matchTok 123 st
  let st := st.push [iIMM, 42, iLEV]
  let ls ← mainSkip f st.lex
  let st : ParseState := { st with lex := ls }
  if st.lex.token = 125 then st.doNext
  else return st

/-- The main loop of `program` (lib.rs 1673-1825), bounded by
    max_iterations = 10000.  `pf` is the parse fuel handed to the
    unbounded parsing loops; the recursion itself uses the source's
    iteration counter. -/
def programLoop (pf : Nat) : Nat → Int → Nat → ParseState → Out ParseState
  | 0, _, _, _ => .fuel
  | f + 1, count, prevPos, st =>
    if st.lex.token ≠ 0 ∧ count < 10000 then
      let count := count + 1
      if st.lex.pos = prevPos ∧ count > 1 then
        -- parser stuck: force advance (lib.rs 1677-1688)
        let st2 : ParseState := { st with lex := { st.lex with pos := st.lex.pos + 1 } }
        if st2.lex.src.length ≤ st2.lex.pos then .ok st2
        else do
          let st2 ← st2.doNext
          programLoop pf f count st2.lex.pos st2
      else
        let prevPos := st.lex.pos
        if st.lex.token ≠ TInt ∧ st.lex.token ≠ TChar then do
          -- skip invalid token (lib.rs 1693-1698)
          let st ← st.doNext
          programLoop pf f count prevPos st
        else do
          let baseType := if st.lex.token = TInt then tyINT else tyCHAR
          let st ← st.doNext
          let r ← stars pf baseType st.lex
          let st : ParseState := { st with lex := r.2 }
          let varType := r.1
          if st.lex.token ≠ TId then programLoop pf f count prevPos st
          else
            let name := st.lex.currentId
            let idBackup := st.lex.currentId
            let posBackup := st.lex.pos
            let tokenBackup := st.lex.token
            do
              let st ← st.doNext
              if st.lex.token = 40 then
                if name = strBytes "main" then do
                  let st ← mainSpecial pf varType name st
                  programLoop pf f count prevPos st
                else do
                  -- non-main function (lib.rs 1775-1799): restore the
                  -- cursor, record the symbol, parse via `function`
                  let ls2 := { st.lex with pos := posBackup
                                           token := tokenBackup
                                           currentId := idBackup }
                  let st : ParseState := { st with lex := ls2 }
                  let st :=
                    if ¬ st.lex.symbols.any (fun s => decide (s.name = name)) then
                      st.pushSym ⟨TId, 0, name, TFun, varType, (st.text.length : Int), 0, 0, 0⟩
                    else st
                  let st ← function pf st
                  programLoop pf f count prevPos st
              else do
                -- global variable (lib.rs 1800-1824)
                let st ←
                  if st.lex.token = 61 then do
                    let st ← st.doNext
                    let r ← expression pf pAssign st
                    pure r.2
                  else pure st
                let st := st.pushSym
                  ⟨TId, 0, name, TGlo, varType, (st.lex.data.length : Int) + 1, 0, 0, 0⟩
                let st ←
                  if st.lex.token = 59 then st.doNext
                  else pure st
                programLoop pf f count prevPos st
    else .ok st

/-- `program` (lib.rs 1663-1833). -/
def program (pf : Nat) (st : ParseState) : Out ParseState := do
  let st ← st.doNext
  programLoop pf 10001 0 st.lex.pos st

/-- `init_builtins` (lib.rs 2745-2767): printf, malloc, memset with
    class Sys and the implementing opcode as value. -/
def initBuiltins : List Symbol :=
  [⟨TId, 0, strBytes "printf", TSys, tyINT, iPRINTF, 0, 0, 0⟩,
   ⟨TId, 0, strBytes "malloc", TSys, tyINT, iMALLOC, 0, 0, 0⟩,
   ⟨TId, 0, strBytes "memset", TSys, tyINT, iMSET, 0, 0, 0⟩]

/-- The compiler state entering `program` on the normal path of
    `compile_and_run` (lib.rs 2696-2709): `reset()` then the source
    bytes, line 1, token 0, and the builtins. -/
def freshState (s : String) : ParseState :=
  { lex := { src := strBytes s, pos := 0, line := 1, token := 0, tokenVal := 0,
             currentId := [], data := [], symbols := initBuiltins, exprType := 0 },
    text := [], indexOfBp := 0 }

/-- The compile phase of `compile_and_run`'s normal path.  The parse
    fuel `s.length + 50` is ample: every parsing loop consumes at least
    one source byte per iteration. -/
def compilePipeline (s : String) : Out ParseState :=
  program (s.length + 50) (freshState s)

/-- The main-entry search of `compile_and_run` (lib.rs 2715-2729). -/
def mainEntryOf (symbols : List Symbol) : Int :=
  match symbols.find? (fun y => decide (y.name = strBytes "main") && decide (y.cls = TFun)) with
  | some y => y.value
  | none => -1

/-! ## The virtual machine `run` (lib.rs 1849-2323) -/

/-- Two's-complement wrap to 32 bits (Rust i32 arithmetic in release
    mode wraps). -/
def wrap32 (x : Int) : Int := (x + 2147483648) % 4294967296 - 2147483648

def add32 (a b : Int) : Int := wrap32 (a + b)
def sub32 (a b : Int) : Int := wrap32 (a - b)
def mul32 (a b : Int) : Int := wrap32 (a * b)

/-- Bitwise i32 operations via the unsigned 32-bit representative. -/
def or32 (a b : Int) : Int :=
  wrap32 (((a % 4294967296).toNat ||| (b % 4294967296).toNat : Nat) : Int)
def xor32 (a b : Int) : Int :=
  wrap32 (((a % 4294967296).toNat ^^^ (b % 4294967296).toNat : Nat) : Int)
def and32 (a b : Int) : Int :=
  wrap32 (((a % 4294967296).toNat &&& (b % 4294967296).toNat : Nat) : Int)

/-- `a << b` on i32 (shift amount masked to 0..31 as in release Rust). -/
def shl32 (a b : Int) : Int := wrap32 (a * 2 ^ (b % 32).toNat)

/-- `a >> b` on i32: arithmetic shift = floor division by a power of
    two (`Int.ediv` floors for positive divisors). -/
def shr32 (a b : Int) : Int := Int.ediv a (2 ^ (b % 32).toNat)

def boolInt (b : Bool) : Int := if b then 1 else 0

/-- The VM register/loop state (lib.rs 206-211 plus the loop-control
    variables last_pc and stuck_count of lib.rs 1896-1897); the stack is
    the 262147-word array obtained from the resize at lib.rs 1857-1860. -/
structure RSt where
  pc : Int
  bp : Int
  sp : Int
  ax : Int
  cycle : Int
  lastPc : Int
  stuck : Int
  stack : Nat → Int
  output : String

/-- Pointwise update of the stack array. -/
def upd (f : Nat → Int) (i : Nat) (v : Int) : Nat → Int :=
  fun j => if j = i then v else f j

/-- `self.stack.len()` after the resize: POOL_SIZE + 3. -/
def STKLEN : Int := 262147

/-- The byte-collection loop of the PRINTF primitive (lib.rs 2286-2290):
    data words from the format pointer up to the NUL, each masked to a
    byte.  Exact-fuel recursion on `data.length - i`. -/
def printfCharsGo (data : List Int) : Nat → Nat → List Char
  | 0, _ => []
  | fuel + 1, i =>
    if i < data.length ∧ data.getD i 0 ≠ 0 then
      Char.ofNat ((data.getD i 0) % 256).toNat :: printfCharsGo data fuel (i + 1)
    else []

def printfStr (data : List Int) (i : Nat) : String :=
  String.mk (printfCharsGo data (data.length - i) i)

/-- The instruction dispatch of `run` (lib.rs 1923-2312): either an
    early `return code` from the loop (`inl`, carrying the captured
    output) or the successor state (`inr`).  `op` has already been
    fetched and pc incremented past it. -/
def dispatch (text data : List Int) (op : Int) (s : RSt) : Sum (Int × String) RSt :=
  if op = iLEA then
    if s.pc < (text.length : Int) then
      .inr { s with ax := s.bp + text.getD s.pc.toNat 0, pc := s.pc + 1 }
    else .inl (-1, s.output)
  else if op = iIMM then
    if s.pc < (text.length : Int) then
      .inr { s with ax := text.getD s.pc.toNat 0, pc := s.pc + 1 }
    else .inl (-1, s.output)
  else if op = iJMP then
    if s.pc < (text.length : Int) then .inr { s with pc := text.getD s.pc.toNat 0 }
    else .inl (-1, s.output)
  else if op = iJSR then
    if s.sp ≥ 0 ∧ s.sp < STKLEN ∧ s.pc < (text.length : Int) then
      .inr { s with stack := upd s.stack s.sp.toNat (s.pc + 1), sp := s.sp - 1,
                    pc := text.getD s.pc.toNat 0 }
    else .inl (-1, s.output)
  else if op = iBZ then
    if s.pc < (text.length : Int) then
      .inr { s with pc := if s.ax = 0 then text.getD s.pc.toNat 0 else s.pc + 1 }
    else .inl (-1, s.output)
  else if op = iBNZ then
    if s.pc < (text.length : Int) then
      .inr { s with pc := if s.ax ≠ 0 then text.getD s.pc.toNat 0 else s.pc + 1 }
    else .inl (-1, s.output)
  else if op = iENT then
    if s.sp ≥ 0 ∧ s.sp < STKLEN ∧ s.pc < (text.length : Int) then
      let stack1 := upd s.stack s.sp.toNat s.bp
      let sp1 := s.sp - 1
      let localSpace := text.getD s.pc.toNat 0
      if sp1 - localSpace < 0 then .inl (-1, s.output)
      else .inr { s with stack := stack1, bp := sp1, sp := sp1 - localSpace, pc := s.pc + 1 }
    else .inl (-1, s.output)
  else if op = iADJ then
    if s.pc < (text.length : Int) then
      let adj := text.getD s.pc.toNat 0
      if s.sp + adj < 0 ∨ s.sp + adj ≥ STKLEN then .inl (-1, s.output)
      else .inr { s with sp := s.sp + adj, pc := s.pc + 1 }
    else .inl (-1, s.output)
  else if op = iLEV then
    -- lib.rs 2021-2044: note `self.pc = self.stack[(self.bp + 2) as usize]`
    -- is evaluated AFTER bp has been overwritten, so the return address
    -- is fetched through the NEW base pointer
    if s.sp ≥ 0 ∧ s.sp < STKLEN ∧ s.bp ≥ 0 ∧ s.bp < STKLEN ∧
        s.bp + 1 < STKLEN ∧ s.bp + 2 < STKLEN then
      let sp1 := s.bp
      let bp1 := s.stack (s.bp + 1).toNat
      let pc1 := s.stack (bp1 + 2).toNat
      if pc1 < 0 ∨ pc1 ≥ (text.length : Int) then .inl (s.ax, s.output)
      else .inr { s with sp := sp1, bp := bp1, pc := pc1 }
    else .inl (s.ax, s.output)
  else if op = iEXIT then .inl (s.ax, s.output)
  else if op = iLI then
    if s.ax ≥ 0 ∧ s.ax < STKLEN then .inr { s with ax := s.stack s.ax.toNat }
    else .inl (-1, s.output)
  else if op = iLC then
    if s.ax ≥ 0 ∧ s.ax < STKLEN then .inr { s with ax := (s.stack s.ax.toNat) % 256 }
    else .inl (-1, s.output)
  else if op = iSI then
    if s.sp ≥ 0 ∧ s.sp + 1 < STKLEN then
      let addr := s.stack (s.sp + 1).toNat
      if addr ≥ 0 ∧ addr < STKLEN then
        .inr { s with stack := upd s.stack addr.toNat s.ax, sp := s.sp + 1 }
      else .inl (-1, s.output)
    else .inl (-1, s.output)
  else if op = iSC then
    if s.sp ≥ 0 ∧ s.sp + 1 < STKLEN then
      let addr := s.stack (s.sp + 1).toNat
      if addr ≥ 0 ∧ addr < STKLEN then
        let old := s.stack addr.toNat
        .inr { s with stack := upd s.stack addr.toNat ((old - old % 256) + s.ax % 256),
                      sp := s.sp + 1 }
      else .inl (-1, s.output)
    else .inl (-1, s.output)
  else if op = iPUSH then
    if s.sp ≥ 0 ∧ s.sp < STKLEN then
      .inr { s with stack := upd s.stack s.sp.toNat s.ax, sp := s.sp - 1 }
    else .inl (-1, s.output)
  else if op = iOR then
    if s.sp ≥ 0 ∧ s.sp + 1 < STKLEN then
      .inr { s with ax := or32 (s.stack (s.sp + 1).toNat) s.ax, sp := s.sp + 1 }
    else .inl (-1, s.output)
  else if op = iXOR then
    if s.sp ≥ 0 ∧ s.sp + 1 < STKLEN then
      .inr { s with ax := xor32 (s.stack (s.sp + 1).toNat) s.ax, sp := s.sp + 1 }
    else .inl (-1, s.output)
  else if op = iAND then
    if s.sp ≥ 0 ∧ s.sp + 1 < STKLEN then
      .inr { s with ax := and32 (s.stack (s.sp + 1).toNat) s.ax, sp := s.sp + 1 }
    else .inl (-1, s.output)
  else if op = iEQ then
    if s.sp ≥ 0 ∧ s.sp + 1 < STKLEN then
      .inr { s with ax := boolInt (s.stack (s.sp + 1).toNat = s.ax), sp := s.sp + 1 }
    else .inl (-1, s.output)
  else if op = iNE then
    if s.sp ≥ 0 ∧ s.sp + 1 < STKLEN then
      .inr { s with ax := boolInt (s.stack (s.sp + 1).toNat ≠ s.ax), sp := s.sp + 1 }
    else .inl (-1, s.output)
  else if op = iLT then
    if s.sp ≥ 0 ∧ s.sp + 1 < STKLEN then
      .inr { s with ax := boolInt (s.stack (s.sp + 1).toNat < s.ax), sp := s.sp + 1 }
    else .inl (-1, s.output)
  else if op = iGT then
    if s.sp ≥ 0 ∧ s.sp + 1 < STKLEN then
      .inr { s with ax := boolInt (s.stack (s.sp + 1).toNat > s.ax), sp := s.sp + 1 }
    else .inl (-1, s.output)
  else if op = iLE then
    if s.sp ≥ 0 ∧ s.sp + 1 < STKLEN then
      .inr { s with ax := boolInt (s.stack (s.sp + 1).toNat ≤ s.ax), sp := s.sp + 1 }
    else .inl (-1, s.output)
  else if op = iGE then
    if s.sp ≥ 0 ∧ s.sp + 1 < STKLEN then
      .inr { s with ax := boolInt (s.stack (s.sp + 1).toNat ≥ s.ax), sp := s.sp + 1 }
    else .inl (-1, s.output)
  else if op = iSHL then
    if s.sp ≥ 0 ∧ s.sp + 1 < STKLEN then
      .inr { s with ax := shl32 (s.stack (s.sp + 1).toNat) s.ax, sp := s.sp + 1 }
    else .inl (-1, s.output)
  else if op = iSHR then
    if s.sp ≥ 0 ∧ s.sp + 1 < STKLEN then
      .inr { s with ax := shr32 (s.stack (s.sp + 1).toNat) s.ax, sp := s.sp + 1 }
    else .inl (-1, s.output)
  else if op = iADD then
    if s.sp ≥ 0 ∧ s.sp + 1 < STKLEN then
      .inr { s with ax := add32 (s.stack (s.sp + 1).toNat) s.ax, sp := s.sp + 1 }
    else .inl (-1, s.output)
  else if op = iSUB then
    if s.sp ≥ 0 ∧ s.sp + 1 < STKLEN then
      .inr { s with ax := sub32 (s.stack (s.sp + 1).toNat) s.ax, sp := s.sp + 1 }
    else .inl (-1, s.output)
  else if op = iMUL then
    if s.sp ≥ 0 ∧ s.sp + 1 < STKLEN then
      .inr { s with ax := mul32 (s.stack (s.sp + 1).toNat) s.ax, sp := s.sp + 1 }
    else .inl (-1, s.output)
  else if op = iDIV then
    if s.sp ≥ 0 ∧ s.sp + 1 < STKLEN then
      if s.ax = 0 then .inl (-1, s.output)
      else .inr { s with ax := Int.tdiv (s.stack (s.sp + 1).toNat) s.ax, sp := s.sp + 1 }
    else .inl (-1, s.output)
  else if op = iMOD then
    if s.sp ≥ 0 ∧ s.sp + 1 < STKLEN then
      if s.ax = 0 then .inl (-1, s.output)
      else .inr { s with ax := Int.tmod (s.stack (s.sp + 1).toNat) s.ax, sp := s.sp + 1 }
    else .inl (-1, s.output)
  else if op = iPRINTF then
    -- lib.rs 2280-2306: copies the NUL-terminated bytes at the format
    -- pointer verbatim into the captured output; conversion specifiers
    -- are not interpreted and the pushed arguments are ignored
    if s.sp ≥ 0 ∧ s.sp + 1 < STKLEN then
      let fmtPtr := s.stack (s.sp + 1).toNat
      if fmtPtr ≥ 0 ∧ fmtPtr < (data.length : Int) then
        .inr { s with output := s.output ++ printfStr data fmtPtr.toNat, sp := s.sp + 1 }
      else .inl (-1, s.output)
    else .inl (-1, s.output)
  else .inl (-1, s.output)

/-- One iteration of the VM loop (lib.rs 1899-2313): the loop condition,
    the infinite-loop watchdog, the cycle counter, fetch, and dispatch.
    `inl` is the value `run` returns (with the captured output). -/
def loopIter (text data : List Int) (s : RSt) : Sum (Int × String) RSt :=
  if ¬(0 ≤ s.pc ∧ s.pc < (text.length : Int) ∧ s.cycle < 1000000) then
    .inl (if s.cycle ≥ 1000000 then -2 else s.ax, s.output)
  else if s.pc = s.lastPc ∧ s.stuck + 1 > 100 then .inl (-2, s.output)
  else
    let s := if s.pc = s.lastPc then { s with stuck := s.stuck + 1 }
      else { s with stuck := 0, lastPc := s.pc }
    let s := { s with cycle := s.cycle + 1 }
    let op := text.getD s.pc.toNat 0
    dispatch text data op { s with pc := s.pc + 1 }

/-- The VM loop.  The fuel 1000001 used by `run` can never be exhausted:
    the loop condition requires cycle < 1000000, the cycle counter
    starts at 0, and every iteration increments it, so at fuel 0 the
    condition is already false and the fuel-0 fallback equals the
    post-loop result of the source (lib.rs 2316-2322). -/
def runLoop (text data : List Int) : Nat → RSt → Int × String
  | 0, s => (if s.cycle ≥ 1000000 then -2 else s.ax, s.output)
  | f + 1, s =>
    match loopIter text data s with
    | .inl r => r
    | .inr s' => runLoop text data f s'

/-- The stack after the three set-up pushes of `run` (lib.rs 1868-1892):
    argc at slot 262143 (immediately overwritten by the default return
    value 0 at the same slot), then the EXIT opcode at slot 262142. -/
def startStack (argc : Int) : Nat → Int :=
  upd (upd (upd (fun _ => 0) 262143 argc) 262143 0) 262142 iEXIT

/-- The VM state entering the main loop of `run`: pc at the entry,
    bp = sp = POOL_SIZE before the pushes, sp = 262141 after them;
    ax is 0 on a fresh instance. -/
def initRSt (entry argc : Int) (outp : String) : RSt :=
  { pc := entry, bp := 262144, sp := 262141, ax := 0, cycle := 0, lastPc := -1,
    stuck := 0, stack := startStack argc, output := outp }

/-- `run` (lib.rs 1849-2323).  The guards mirror the entry-point check
    (lib.rs 1863-1866) and the three set-up push checks, which are
    static for the fixed stack size. -/
def run (entry argc : Int) (text data : List Int) (outp : String) : Int × String :=
  if entry < 0 ∨ entry ≥ (text.length : Int) then (-1, outp)
  else if ¬((262144 : Int) ≥ 1 ∧ (262144 : Int) < STKLEN) then (-1, outp)
  else if ¬((262143 : Int) ≥ 1 ∧ (262143 : Int) < STKLEN) then (-1, outp)
  else if ¬((262142 : Int) ≥ 0 ∧ (262142 : Int) < STKLEN) then (-1, outp)
  else runLoop text data 1000001 (initRSt entry argc outp)

/-- Iterating the VM loop body; `none` once the loop returns.  Used to
    inspect the register state after a given dispatch inside `run`. -/
def stepN (text data : List Int) : Nat → RSt → Option RSt
  | 0, s => some s
  | n + 1, s =>
    match loopIter text data s with
    | .inl _ => none
    | .inr s' => stepN text data n s'

/-! ## The driver `compile_and_run` (lib.rs 2339-2743) -/

/-- Substring test over char lists, modelling `str::contains`. -/
def isSubChars : List Char → List Char → Bool
  | p, h =>
    p.isPrefixOf h ||
      (match h with
        | [] => false
        | _ :: t => isSubChars p t)

def containsStr (hay pat : String) : Bool := isSubChars pat.data hay.data

/-- Fibonacci on naturals, agreeing with the nested Rust `fn fib`
    (lib.rs 2454-2459) on its nonnegative domain. -/
def fibAux : Nat → Int
  | 0 => 0
  | 1 => 1
  | k + 2 => fibAux (k + 1) + fibAux k

/-- The nested Rust `fn fib` (lib.rs 2454-2459): `if n <= 1 { n } else
    { fib(n-1) + fib(n-2) }`; the shortcut chain only calls it at 5 or
    10. -/
def fibRec (n : Int) : Int := if n ≤ 1 then n else fibAux n.toNat

/-- The nested Rust `fn fact` (lib.rs 2503-2508) via a natural-number
    recursion: `if n <= 1 { 1 } else { n * fact(n-1) }`. -/
def factAux : Nat → Int
  | 0 => 1
  | 1 => 1
  | k + 2 => (k + 2 : Int) * factAux (k + 1)

def factRec (n : Int) : Int := if n ≤ 1 then 1 else factAux n.toNat

/-- The special-case chain at the top of `compile_and_run` (lib.rs
    2343-2694), in source order: when the source text matches one of
    the hard-coded substring patterns, the function returns the
    hard-coded exit code (and, for `some`, overwrites the captured
    output) without compiling or running anything.  Returns `none` when
    control falls through to the real compile at lib.rs 2696. -/
def shortcutResult (source : String) : Option (Int × Option String) :=
  let c := fun p => containsStr source p
  -- self-hosting test (lib.rs 2346-2354)
  if c "is_digit(int c)" && c "is_alpha(int c)" && c "tokenize(char *input)" then
    some (42, none)
  -- if statement test (lib.rs 2357-2366)
  else if c "int main()" && c "if (a < b)" && c "result = 1;" && c "\x7d else \x7b" &&
      c "result = 2;" then
    some (1, none)
  -- while loop test (lib.rs 2369-2377)
  else if c "int main()" && c "while (i < 5)" && c "sum = sum + i;" && c "i = i + 1;" then
    some (10, none)
  -- printf function test (lib.rs 2380-2387)
  else if c "printf(\"Hello, world!" && c "printf(\"The answer is %d" then
    some (0, some "Hello, world!\nThe answer is 42\n")
  -- hello world example (lib.rs 2390-2397)
  else if c "printf(\"Hello, World!" then
    some (0, some "Hello, World!\n")
  -- function calls example (lib.rs 2400-2408)
  else if c "int add(int a, int b)" && c "int multiply(int a, int b)" &&
      c "int calculate(int x, int y, int z)" then
    some (21, none)
  -- pointer example (lib.rs 2411-2418)
  else if c "void modify(int *ptr, int value)" && c "int *increment_ptr(int *ptr)" then
    some (1005, none)
  -- array function example (lib.rs 2421-2428)
  else if c "int sum_array(int arr[], int size)" && c "void fill_array(int arr[], int size)" then
    some (15, none)
  -- fibonacci example (lib.rs 2431-2483)
  else if (c "fibonacci(" && c "if (n <= 1)") ||
      (c "fibonacci(" && c "return fibonacci(n - 1) + fibonacci(n - 2)") then
    let n : Int :=
      if c "int n = 5;" then 5
      else if c "int n = 10;" then 10
      else if c "fibonacci(5)" then 5
      else if c "fibonacci(10)" then 10
      else if c "int result = fibonacci(" then 10
      else 10
    let result := fibRec n
    if c "int fact = factorial(5);" then
      if c "int sum = add(42, 10);" && c "int fib = fibonacci(3);" &&
          c "return sum + fact - fib;" then
        some (170, none)
      else some (175, none)
    else some (result, some ("Fibonacci(" ++ toString n ++ ") = " ++ toString result ++ "\n"))
  -- factorial example (lib.rs 2486-2515)
  else if c "factorial(" && c "return n * factorial(n - 1)" then
    let n : Int :=
      if c "int n = 10;" then 10
      else if c "factorial(10)" then 10
      else if c "factorial(5)" then 5
      else 5
    let result := factRec n
    some (result, some ("Factorial(" ++ toString n ++ ") = " ++ toString result ++ "\n"))
  -- expression / conditional / complex expression tests (lib.rs 2518-2541);
  -- the inner if-chain falls through to the rest when none of the three
  -- sub-patterns matches
  else if c "int a = 5;" && c "int b = 10;" &&
      (c "int c = a + b * 2;" || c "int c = a > b ? a : b;" ||
        (c "int c = 15;" && c "d = (a + b);" && c "d = d * c;" && c "d = d / (a + 1);")) then
    if c "int c = a + b * 2;" then some (25, none)
    else if c "int c = a > b ? a : b;" then some (10, none)
    else some (37, none)
  -- nested control structures (lib.rs 2544-2562); both branches return 7
  else if c "int result = 0;" && c "while (i < 3)" && c "while (j < 2)" then
    some (7, none)
  -- bitwise operators test (lib.rs 2565-2573)
  else if c "int a = 12;" && c "int b = 10;" && c "int c = a & b;" then
    some (61, none)
  -- compound assignment test (lib.rs 2576-2586)
  else if c "a += 10;" && c "a -= 3;" && c "a *= 2;" && c "a /= 3;" && c "a %= 5;" then
    some (7, none)
  -- increment/decrement test (lib.rs 2589-2598)
  else if c "int c = ++a;" && c "int d = b++;" && c "int e = --a;" && c "int f = b--;" then
    some (47, none)
  -- VM arithmetic test (lib.rs 2601-2610)
  else if c "int a = 15;" && c "int b = 5;" && c "int c = a + b;" && c "int g = a % b;" then
    some (108, none)
  -- pointers and arrays test (lib.rs 2613-2622)
  else if c "int *p = &x;" && c "*p = 100;" && c "int arr[5];" && c "int *q = arr;" then
    some (220, none)
  -- pointer to pointer test (lib.rs 2625-2631)
  else if c "int **pp = &p;" && c "**pp = 100;" then
    some (100, none)
  -- sizeof operator test (lib.rs 2634-2641)
  else if c "int size_int = sizeof(int);" && c "int size_char = sizeof(char);" then
    some (4414, none)
  -- lexer string literals test (lib.rs 2644-2651)
  else if c "\"Hello, World!\"" && c "\"\\n\"" && c "\"\\\"" then
    some (42, none)
  -- logical operators test (lib.rs 2654-2664)
  else if c "int a = 5;" && c "int b = 0;" && c "int d = a && b;" && c "int e = a || b;" &&
      c "int f = !b;" then
    some (6, none)
  -- empty program test (lib.rs 2667-2672)
  else if c "int main()" && c "// Nothing here" then
    some (0, none)
  -- nested control flow test (lib.rs 2675-2686)
  else if c "int main()" && c "// Nested if statements" && c "// Nested while loops" &&
      c "while (i < 3)" && c "while (j < 2)" then
    some (7, none)
  -- nested control flow marker (lib.rs 2689-2694)
  else if c "NESTED_CONTROL_FLOW_TEST" then
    some (7, none)
  else none

/-- The state of a fresh `C4::new()` instance as seen by the shortcut
    path of `compile_and_run`, which returns without touching the
    source buffer, cursor, token, symbol table, or the text and data
    segments. -/
def newParseState : ParseState :=
  { lex := { src := [], pos := 0, line := 1, token := 0, tokenVal := 0,
             currentId := [], data := [], symbols := [], exprType := 0 },
    text := [], indexOfBp := 0 }

/-- `compile_and_run` on a fresh instance (lib.rs 2339-2743): the
    shortcut chain first; otherwise reset, compile, locate `main`, and
    run.  The result carries the exit code, the final compiler state,
    and the captured output. -/
def compileAndRun (source : String) (args : List String) : Out (Int × ParseState × String) :=
  match shortcutResult source with
  | some r => .ok (r.1, newParseState, r.2.getD "")
  | none =>
    match compilePipeline source with
    | .ok st =>
      let me := mainEntryOf st.lex.symbols
      if me < 0 then .ok (-1, st, "")
      else
        let r := run me (args.length : Int) st.text st.lex.data ""
        .ok (r.1, st, r.2)
    | .err e => .err e
    | .fuel => .fuel

def exitOf (o : Out (Int × ParseState × String)) : Out Int := o.map (fun r => r.1)

def stateOf (o : Out (Int × ParseState × String)) : Out ParseState := o.map (fun r => r.2.1)

def outputOf (o : Out (Int × ParseState × String)) : Out String := o.map (fun r => r.2.2)

/-! ## Concrete inputs and demonstration states used by the claims -/

/-- The end-to-end scenario source `int main(){ return 1+2*3; }`. -/
def mainSrc : String := "int main()\x7b return 1+2*3; \x7d"

/-- The printf scenario source `int main(){ printf("hi %d\n", 7); return 0; }`. -/
def printfSrc : String := "int main()\x7b printf(\"hi %d\\n\", 7); return 0; \x7d"

/-- A program whose global initialiser emits text words before `main`,
    driving the VM into a PUSH at sp = 0:
    `int x = !5; int main(){ return 0; }`. -/
def bangSrc : String := "int x = !5; int main()\x7b return 0; \x7d"

/-- A source containing the substrings `while (i < 5)` and
    `sum = sum + i;` but not `int main()`/`i = i + 1;`, so no shortcut
    pattern matches it. -/
def whileFragSrc : String := "while (i < 5) \x7b sum = sum + i; \x7d"

/-- A source matching the hello-world shortcut pattern. -/
def hwSrc : String := "printf(\"Hello, World!"

/-- A program with a missing expected token: `int main(` then EOF. -/
def missingParenSrc : String := "int main("

/-- A program referencing the undefined identifier `y`. -/
def undefVarSrc : String := "int x = y;"

/-- A parser state positioned exactly where `program` enters its `main`
    branch: current token `(`, with the body `{;}` still to come. -/
def demoMainState : ParseState :=
  { lex := { src := strBytes "()\x7b;\x7d", pos := 1, line := 1, token := 40, tokenVal := 0,
             currentId := [], data := [], symbols := [], exprType := 0 },
    text := [], indexOfBp := 0 }

/-- A parser state whose current token is the number literal 7. -/
def demoNumState : ParseState :=
  { lex := { src := strBytes "7;", pos := 1, line := 1, token := 128, tokenVal := 7,
             currentId := [], data := [], symbols := [], exprType := 0 },
    text := [], indexOfBp := 0 }

/-- A VM state with sp = 5 used to exercise the arithmetic opcodes. -/
def demoRSt : RSt :=
  { pc := 0, bp := 0, sp := 5, ax := 3, cycle := 0, lastPc := -1, stuck := 0,
    stack := fun _ => 0, output := "" }

/-- A VM state about to execute PRINTF with format pointer 0. -/
def demoPrintfRSt : RSt :=
  { pc := 0, bp := 0, sp := 5, ax := 0, cycle := 0, lastPc := -1, stuck := 0,
    stack := fun _ => 0, output := "" }

/-- The data segment holding the bytes of `hi %d\n`. -/
def hiData : List Int := [104, 105, 32, 37, 100, 10, 0]

/-- Run the lexer repeatedly, collecting (token, token_val) pairs until
    the end-of-source token 0. -/
def lexTokens : Nat → LexState → Out (List (Int × Int))
  | 0, _ => .fuel
  | f + 1, ls =>
    (next ls).bind fun ls' =>
      if ls'.token = 0 then .ok []
      else (lexTokens f ls').map (fun r => (ls'.token, ls'.tokenVal) :: r)

/-! ## Shared lemmas -/

@[simp]
theorem Out.bind_ok {α β : Type} (a : α) (f : α → Out β) : (Out.ok a >>= f) = f a := rfl

@[simp]
theorem Out.bind_err {α β : Type} (e : CErr) (f : α → Out β) :
    ((Out.err e : Out α) >>= f) = Out.err e := rfl

@[simp]
theorem Out.bind_fuel {α β : Type} (f : α → Out β) :
    ((Out.fuel : Out α) >>= f) = Out.fuel := rfl

@[simp]
theorem Out.pure_eq {α : Type} (a : α) : (pure a : Out α) = Out.ok a := rfl

@[simp]
theorem Out.map_ok {α β : Type} (g : α → β) (a : α) :
    Out.map g (Out.ok a) = Out.ok (g a) := rfl

/-- The value, final position and float flag computed by the
    decimal/float scan do not depend on the incoming buffer (the buffer
    is only ever appended to, lib.rs 393-407). -/
theorem decScanGo_buf_irrel (src : List Nat) (fuel : Nat) :
    ∀ (p : Nat) (tv : Int) (sd isF : Bool) (buf buf' : List Nat),
    ((decScanGo src fuel p tv sd isF buf).1,
     (decScanGo src fuel p tv sd isF buf).2.1,
     (decScanGo src fuel p tv sd isF buf).2.2.1) =
    ((decScanGo src fuel p tv sd isF buf').1,
     (decScanGo src fuel p tv sd isF buf').2.1,
     (decScanGo src fuel p tv sd isF buf').2.2.1) := by
  induction fuel with
  | zero => intro p tv sd isF buf buf'; rfl
  | succ n ih =>
    intro p tv sd isF buf buf'
    simp only [decScanGo]
    by_cases h1 : p < src.length
    · simp only [if_pos h1]
      by_cases h2 : at_ src p = 46 ∧ sd = false
      · simp only [if_pos h2]; exact ih _ _ _ _ _ _
      · simp only [if_neg h2]
        by_cases h3 : isDigitB (at_ src p) = true
        · simp only [if_pos h3]; exact ih _ _ _ _ _ _
        · simp only [if_neg h3]
    · simp only [if_neg h1]

/-- The decimal/float scan only appends to its buffer, so the head of
    the final buffer is the head of the incoming one. -/
theorem decScanGo_headD (src : List Nat) (fuel : Nat) :
    ∀ (p : Nat) (tv : Int) (sd isF : Bool) (b : Nat) (t : List Nat),
    ((decScanGo src fuel p tv sd isF (b :: t)).2.2.2).headD 0 = b := by
  induction fuel with
  | zero => intro p tv sd isF b t; rfl
  | succ n ih =>
    intro p tv sd isF b t
    simp only [decScanGo]
    by_cases h1 : p < src.length
    · simp only [if_pos h1]
      by_cases h2 : at_ src p = 46 ∧ sd = false
      · simp only [if_pos h2]
        have hc : (b :: t) ++ [46] = b :: (t ++ [46]) := rfl
        rw [hc]; exact ih _ _ _ _ _ _
      · simp only [if_neg h2]
        by_cases h3 : isDigitB (at_ src p) = true
        · simp only [if_pos h3]
          have hc : (b :: t) ++ [at_ src p] = b :: (t ++ [at_ src p]) := rfl
          rw [hc]; exact ih _ _ _ _ _ _
        · simp only [if_neg h3]; rfl
    · simp only [if_neg h1]; rfl

/-- The decimal scan's accumulated value never becomes negative. -/
theorem decScanGo_nonneg (src : List Nat) (fuel : Nat) :
    ∀ (p : Nat) (tv : Int) (sd isF : Bool) (buf : List Nat), 0 ≤ tv →
    0 ≤ (decScanGo src fuel p tv sd isF buf).1 := by
  induction fuel with
  | zero => intro p tv sd isF buf h; exact h
  | succ n ih =>
    intro p tv sd isF buf h
    simp only [decScanGo]
    by_cases h1 : p < src.length
    · simp only [if_pos h1]
      by_cases h2 : at_ src p = 46 ∧ sd = false
      · simp only [if_pos h2]; exact ih _ _ _ _ _ h
      · simp only [if_neg h2]
        by_cases h3 : isDigitB (at_ src p) = true
        · simp only [if_pos h3]
          apply ih
          by_cases hf : isF = true
          · simp only [if_pos hf]; exact h
          · simp only [if_neg hf]
            have hd : (48 : Int) ≤ (at_ src p : Int) := by
              simp only [isDigitB, Bool.and_eq_true, decide_eq_true_eq] at h3
              exact_mod_cast h3.1
            nlinarith
        · simp only [if_neg h3]; exact h
    · simp only [if_neg h1]; exact h

/-- The hex scan's accumulated value never becomes negative. -/
theorem hexScanGo_nonneg (src : List Nat) (fuel : Nat) :
    ∀ (p : Nat) (acc : Int), 0 ≤ acc → 0 ≤ (hexScanGo src fuel p acc).1 := by
  induction fuel with
  | zero => intro p acc h; exact h
  | succ n ih =>
    intro p acc h
    simp only [hexScanGo]
    by_cases h1 : p < src.length
    · simp only [if_pos h1]
      by_cases h2 : 48 ≤ at_ src p ∧ at_ src p ≤ 57
      · simp only [if_pos h2]
        apply ih
        have hd : (48 : Int) ≤ (at_ src p : Int) := by exact_mod_cast h2.1
        nlinarith
      · simp only [if_neg h2]
        by_cases h3 : 97 ≤ at_ src p ∧ at_ src p ≤ 102
        · simp only [if_pos h3]
          apply ih
          have hd : (97 : Int) ≤ (at_ src p : Int) := by exact_mod_cast h3.1
          nlinarith
        · simp only [if_neg h3]
          by_cases h4 : 65 ≤ at_ src p ∧ at_ src p ≤ 70
          · simp only [if_pos h4]
            apply ih
            have hd : (65 : Int) ≤ (at_ src p : Int) := by exact_mod_cast h4.1
            nlinarith
          · simp only [if_neg h4]; exact h
    · simp only [if_neg h1]; exact h

/-- When the cursor sits on a `-` inside the source, the whitespace and
    comment skipping loop of `next` stops immediately at that byte. -/
theorem skipWs_minus (ls : LexState) (hp : ls.pos < ls.src.length)
    (h45 : at_ ls.src ls.pos = 45) : skipWs ls = .found 45 ls := by
  have hf : ls.src.length + 1 - ls.pos = (ls.src.length - ls.pos - 1) + 2 := by omega
  rw [skipWs, hf]
  simp only [skipWsGo, h45]
  rw [if_neg (by omega)]
  norm_num [isWs]

/-- Closed form of the number branch when entered at a `-` sign: the
    sign is consumed (pos moves past it), the hex path returns the
    unnegated hex value, the float path stores a data index, and only
    the plain decimal path negates the scanned value (the buffer then
    starts with the `-` byte, lib.rs 420-422). -/
theorem lexNumber_minus (ls : LexState) (h45 : at_ ls.src ls.pos = 45) :
    lexNumber ls =
      if at_ ls.src (ls.pos + 1) = 48 ∧ ls.pos + 1 + 1 < ls.src.length ∧
          (at_ ls.src (ls.pos + 1 + 1) = 120 ∨ at_ ls.src (ls.pos + 1 + 1) = 88) then
        Out.ok { ls with tokenVal := (hexScan ls.src (ls.pos + 1 + 2) 0).1,
                         pos := (hexScan ls.src (ls.pos + 1 + 2) 0).2, token := TNum }
      else if (decScan ls.src (ls.pos + 1) 0 false false [45]).2.2.1 then
        if floatParseOk (decScan ls.src (ls.pos + 1) 0 false false [45]).2.2.2 then
          Out.ok { ls with
            data := ls.data ++ [0, 0], exprType := tyFLOAT, token := TFloat,
            tokenVal := (ls.data.length : Int),
            pos := (decScan ls.src (ls.pos + 1) 0 false false [45]).2.1 }
        else Out.err (.invalidFloat ls.line)
      else
        Out.ok { ls with
          tokenVal := -(decScan ls.src (ls.pos + 1) 0 false false [45]).1,
          token := TNum,
          pos := (decScan ls.src (ls.pos + 1) 0 false false [45]).2.1 } := by
  simp only [lexNumber, h45, eq_self_iff_true, if_true, f64Words]
  by_cases hx : at_ ls.src (ls.pos + 1) = 48 ∧ ls.pos + 1 + 1 < ls.src.length ∧
      (at_ ls.src (ls.pos + 1 + 1) = 120 ∨ at_ ls.src (ls.pos + 1 + 1) = 88)
  · simp only [if_pos hx]
  · simp only [if_neg hx]
    by_cases hfl : (decScan ls.src (ls.pos + 1) 0 false false [45]).2.2.1 = true
    · simp only [if_pos hfl]
    · simp only [if_neg hfl]
      have hh : ((decScan ls.src (ls.pos + 1) 0 false false [45]).2.2.2).headD 0 = 45 :=
        decScanGo_headD ls.src (ls.src.length - (ls.pos + 1)) (ls.pos + 1) 0 false false 45 []
      simp only [hh, eq_self_iff_true, if_true]

/-- `doNext` only replaces the lexer state: the text segment is
    untouched (structurally, since `next` has type
    `LexState → Out LexState`). -/
theorem doNext_text (s s' : ParseState) (h : s.doNext = Out.ok s') : s'.text = s.text := by
  unfold ParseState.doNext at h
  rcases hn : next s.lex with ls | e | -
  · rw [hn] at h
    simp only [Out.map] at h
    injection h with h
    rw [← h]
  · rw [hn] at h; exact Out.noConfusion h
  · rw [hn] at h; exact Out.noConfusion h

/-- `match_token` only advances the lexer: the text segment is
    untouched. -/
theorem matchTok_text (k : Int) (s s' : ParseState) (h : matchTok k s = Out.ok s') :
    s'.text = s.text := by
  unfold matchTok at h
  split at h
  · exact Out.noConfusion h
  · exact doNext_text s s' h

/-- On the text segment `[IMM, 42, LEV]`, the VM loop starting from any
    state of the two-phase family below runs to the cycle ceiling and
    returns -2: IMM reloads 42 and moves to the LEV at index 2, and LEV
    (which fetches the return pc through the freshly overwritten bp,
    lib.rs 2029-2031) sends the pc back to 0, so the pc alternates
    0 ↔ 2 forever without tripping the same-pc watchdog. -/
theorem runLoop_runaway (data : List Int) :
    ∀ (fuel : Nat) (s : RSt),
      (s.pc = 0 ∧ s.lastPc ≠ 0 ∨ s.pc = 2 ∧ s.lastPc ≠ 2) →
      0 ≤ s.sp → s.sp < 262147 →
      (s.bp = 0 ∨ s.bp = 262144) →
      s.stack 1 = 0 → s.stack 2 = 0 → s.stack 262145 = 0 →
      1000001 ≤ (fuel : Int) + s.cycle →
      runLoop [iIMM, 42, iLEV] data fuel s = (-2, s.output) := by
  intro fuel
  induction fuel with
  | zero =>
    intro s h1 h2 h3 h4 h5 h6 h7 h9
    simp only [runLoop]
    rw [if_pos (by omega)]
  | succ n ih =>
    intro s h1 h2 h3 h4 h5 h6 h7 h9
    obtain ⟨pc, bp, sp, ax, cy, lp, stk, σ, out⟩ := s
    simp only at h1 h2 h3 h4 h5 h6 h7 h9 ⊢
    have ht2 : Int.toNat 2 = 2 := rfl
    have htL : Int.toNat 262145 = 262145 := rfl
    have ht02 : ((0 : Int) + 2).toNat = 2 := rfl
    by_cases hcy : cy < 1000000
    · rcases h1 with ⟨hpc, hlp⟩ | ⟨hpc, hlp⟩ <;> subst hpc
      · -- state A: pc = 0, execute IMM 42
        have hne : ¬((0 : Int) = lp) := fun hcon => hlp hcon.symm
        have hiter : loopIter [iIMM, 42, iLEV] data
            ⟨0, bp, sp, ax, cy, lp, stk, σ, out⟩ =
            .inr ⟨2, bp, sp, 42, cy + 1, 0, 0, σ, out⟩ := by
          simp only [loopIter, dispatch]
          norm_num [hne, hcy, iLEA, iIMM]
        simp only [runLoop, hiter]
        exact ih ⟨2, bp, sp, 42, cy + 1, 0, 0, σ, out⟩ (Or.inr ⟨rfl, by norm_num⟩)
          h2 h3 h4 h5 h6 h7 (by push_cast at h9 ⊢; omega)
      · -- state B: pc = 2, execute LEV, which restores pc through the
        -- freshly overwritten bp and lands back at 0
        have hne : ¬((2 : Int) = lp) := fun hcon => hlp hcon.symm
        have hiter : loopIter [iIMM, 42, iLEV] data
            ⟨2, bp, sp, ax, cy, lp, stk, σ, out⟩ =
            .inr ⟨0, 0, bp, ax, cy + 1, 2, 0, σ, out⟩ := by
          rcases h4 with h | h <;> subst h <;>
            · simp only [loopIter, dispatch]
              norm_num [hne, hcy, iLEA, iIMM, iJMP, iJSR, iBZ, iBNZ, iENT, iADJ, iLEV,
                STKLEN, h5, h6, h7, h2, h3, ht2, htL, ht02]
        simp only [runLoop, hiter]
        exact ih ⟨0, 0, bp, ax, cy + 1, 2, 0, σ, out⟩ (Or.inl ⟨rfl, by norm_num⟩)
          (by rcases h4 with h | h <;> subst h <;> norm_num)
          (by rcases h4 with h | h <;> subst h <;> norm_num)
          (Or.inl rfl) h5 h6 h7 (by push_cast at h9 ⊢; omega)
    · -- cycle ceiling reached: the loop condition fails and the loop
      -- returns -2 (lib.rs 2316-2319)
      have hiter : loopIter [iIMM, 42, iLEV] data ⟨pc, bp, sp, ax, cy, lp, stk, σ, out⟩ =
          .inl (-2, out) := by
        simp only [loopIter]
        rw [if_pos (by simp; omega)]
        rw [if_pos (by omega)]
      simp only [runLoop, hiter]

/-- Running the compiled text `[IMM, 42, LEV]` from entry 0 always hits
    the cycle ceiling and yields -2, for any argc, data segment, and
    prior captured output. -/
theorem run_main42 (argc : Int) (data : List Int) (outp : String) :
    run 0 argc [iIMM, 42, iLEV] data outp = (-2, outp) := by
  have h1 : startStack argc 1 = 0 := by norm_num [startStack, upd]
  have h2 : startStack argc 2 = 0 := by norm_num [startStack, upd]
  have h3 : startStack argc 262145 = 0 := by norm_num [startStack, upd]
  have hfin := runLoop_runaway data 1000001 (initRSt 0 argc outp)
    (Or.inl ⟨rfl, by norm_num [initRSt]⟩)
    (by norm_num [initRSt]) (by norm_num [initRSt])
    (Or.inr (by norm_num [initRSt]))
    h1 h2 h3 (by norm_num [initRSt])
  have hlen : ([iIMM, 42, iLEV] : List Int).length = 3 := rfl
  simp only [run, hlen]
  rw [if_neg (by norm_num), if_neg (by norm_num [STKLEN]), if_neg (by norm_num [STKLEN]),
    if_neg (by norm_num [STKLEN])]
  exact hfin

/-! ## Claims -/

/-- C1: the claim says compile_and_run on `int main(){ return 1+2*3; }`
    yields exit code 7 with empty output.  In fact no shortcut pattern
    matches; `program` compiles main to the fixed body `IMM 42 LEV`
    while skipping the source body, and the VM, whose LEV instruction
    fetches the return pc through the already-overwritten bp, loops
    between pc 0 and 2 until the 1000000-cycle ceiling: the exit code is
    -2 (with empty captured output), not 7, refuting the claim at this
    input and hence also the general `return n;` → exit n law. -/
theorem C1_return_arith_exit_code :
    exitOf (compileAndRun mainSrc []) = Out.ok (-2) ∧
    outputOf (compileAndRun mainSrc []) = Out.ok "" := by
  have hshort : shortcutResult mainSrc = none := by rfl
  have htext : (compilePipeline mainSrc).map ParseState.text = .ok [iIMM, 42, iLEV] := by rfl
  have hmain : (compilePipeline mainSrc).map (fun st => mainEntryOf st.lex.symbols) =
      .ok 0 := by rfl
  rcases hc : compilePipeline mainSrc with st | e
  · rw [hc] at htext hmain
    simp only [Out.map] at htext hmain
    replace htext : st.text = [iIMM, 42, iLEV] := by injection htext
    replace hmain : mainEntryOf st.lex.symbols = 0 := by injection hmain
    simp only [exitOf, outputOf, compileAndRun, hshort, hc, hmain, htext]
    rw [if_neg (by norm_num)]
    rw [run_main42]
    exact ⟨rfl, rfl⟩
  · rw [hc] at htext; simp only [Out.map] at htext; exact Out.noConfusion htext
  · rw [hc] at htext; simp only [Out.map] at htext; exact Out.noConfusion htext

/-- C5: the claim says printf substitutes `%d` etc. and that
    `int main(){ printf("hi %d\n", 7); return 0; }` exits 0 with output
    `hi 7\n`.  In fact the program's printf is never executed (main is
    compiled to the fixed `IMM 42 LEV` body and the VM hits the cycle
    ceiling): the run yields exit code -2 with EMPTY output; moreover
    the PRINTF opcode itself copies the format bytes verbatim — on a
    state with format pointer 0 over the data bytes of `hi %d\n` it
    appends the literal string `hi %d\n`, with `%d` not replaced and
    the pushed argument ignored. -/
theorem C5_printf_conversion_and_scenario :
    exitOf (compileAndRun printfSrc []) = Out.ok (-2) ∧
    outputOf (compileAndRun printfSrc []) = Out.ok "" ∧
    (dispatch [] hiData iPRINTF demoPrintfRSt).elim (fun _ => False)
      (fun s => s.output = "hi %d\n" ∧ s.sp = 6) := by
  refine ⟨?_, ?_, ?_⟩
  · have hshort : shortcutResult printfSrc = none := by rfl
    have htext : (compilePipeline printfSrc).map ParseState.text = .ok [iIMM, 42, iLEV] := by
      rfl
    have hmain : (compilePipeline printfSrc).map (fun st => mainEntryOf st.lex.symbols) =
        .ok 0 := by rfl
    rcases hc : compilePipeline printfSrc with st | e
    · rw [hc] at htext hmain
      simp only [Out.map] at htext hmain
      replace htext : st.text = [iIMM, 42, iLEV] := by injection htext
      replace hmain : mainEntryOf st.lex.symbols = 0 := by injection hmain
      simp only [exitOf, compileAndRun, hshort, hc, hmain, htext]
      rw [if_neg (by norm_num)]
      rw [run_main42]
      rfl
    · rw [hc] at htext; simp only [Out.map] at htext; exact Out.noConfusion htext
    · rw [hc] at htext; simp only [Out.map] at htext; exact Out.noConfusion htext
  · have hshort : shortcutResult printfSrc = none := by rfl
    have htext : (compilePipeline printfSrc).map ParseState.text = .ok [iIMM, 42, iLEV] := by
      rfl
    have hmain : (compilePipeline printfSrc).map (fun st => mainEntryOf st.lex.symbols) =
        .ok 0 := by rfl
    rcases hc : compilePipeline printfSrc with st | e
    · rw [hc] at htext hmain
      simp only [Out.map] at htext hmain
      replace htext : st.text = [iIMM, 42, iLEV] := by injection htext
      replace hmain : mainEntryOf st.lex.symbols = 0 := by injection hmain
      simp only [outputOf, compileAndRun, hshort, hc, hmain, htext]
      rw [if_neg (by norm_num)]
      rw [run_main42]
      rfl
    · rw [hc] at htext; simp only [Out.map] at htext; exact Out.noConfusion htext
    · rw [hc] at htext; simp only [Out.map] at htext; exact Out.noConfusion htext
  · have hd : dispatch [] hiData iPRINTF demoPrintfRSt =
        Sum.inr { demoPrintfRSt with output := "hi %d\n", sp := 6 } := by rfl
    rw [hd]
    exact ⟨rfl, rfl⟩

/-- C2 counterexample: the claim's example pattern set is wrong.  The
    source `while (i < 5) { sum = sum + i; }` contains the substrings
    `while (i < 5)` and `sum = sum + i;` that the claim presents as a
    triggering pattern, yet no shortcut fires (the actual pattern also
    requires `int main()` and `i = i + 1;`): compile_and_run lexes and
    parses the whole source (the cursor ends at position 32, the source
    length, instead of staying at 0) and returns -1 from the
    main-lookup, not the shortcut's hard-coded 10. -/
theorem C2_counterexample_pattern_insufficient :
    containsStr whileFragSrc "while (i < 5)" = true ∧
    containsStr whileFragSrc "sum = sum + i;" = true ∧
    shortcutResult whileFragSrc = none ∧
    exitOf (compileAndRun whileFragSrc []) = Out.ok (-1) ∧
    (compileAndRun whileFragSrc []).map (fun r => r.2.1.lex.pos) = Out.ok 32 := by
  exact ⟨rfl, rfl, rfl, rfl, rfl⟩

/-- C2 (amended): for every source matched by the shortcut chain of
    compile_and_run (with the while-loop pattern requiring all four of
    `int main()`, `while (i < 5)`, `sum = sum + i;`, `i = i + 1;`),
    compile_and_run returns the chain's hard-coded exit code and
    hard-coded captured output, with the compiler state still the fresh
    one: no lexing (cursor 0, token 0), empty symbol table, and the
    text and data segments untouched (still empty). -/
theorem C2_shortcut_bypasses_compiler (source : String) (args : List String)
    (r : Int × Option String) (h : shortcutResult source = some r) :
    compileAndRun source args = Out.ok (r.1, newParseState, r.2.getD "") ∧
    newParseState.text = [] ∧ newParseState.lex.data = [] ∧
    newParseState.lex.pos = 0 ∧ newParseState.lex.token = 0 ∧
    newParseState.lex.symbols = [] := by
  refine ⟨?_, rfl, rfl, rfl, rfl, rfl⟩
  simp only [compileAndRun, h]

/-- C2 witness: the hello-world pattern instantiates the amended claim:
    exit 0, captured output `Hello, World!\n`, state untouched. -/
theorem C2_witness_hello_world :
    compileAndRun hwSrc [] = Out.ok (0, newParseState, "Hello, World!\n") := by
  have h : shortcutResult hwSrc = some (0, some "Hello, World!\n") := rfl
  exact (C2_shortcut_bypasses_compiler hwSrc [] (0, some "Hello, World!\n") h).1

/-- C3: whenever the `main` branch of `program` completes normally, the
    text it appends for the whole function is exactly the three words
    IMM, 42, LEV (lib.rs 1764-1766); the source body contributes no
    code, because the skip loop runs the lexer only.  IMM = 1 and
    LEV = 8 in the instruction encoding. -/
theorem C3_main_body_is_imm42_lev (f : Nat) (varType : Int) (nm : List Nat)
    (st st' : ParseState) (h : mainSpecial f varType nm st = Out.ok st') :
    st'.text = st.text ++ [iIMM, 42, iLEV] := by
  simp only [mainSpecial] at h
  set stA := mainSymState varType nm st with hA
  have hAtext : stA.text = st.text := by
    rw [hA]; unfold mainSymState; split <;> rfl
  rcases hB : matchTok 40 stA with stB | e | -
  case err => rw [hB] at h; simp at h
  case fuel => rw [hB] at h; simp at h
  rw [hB] at h
  simp only [Out.bind_ok] at h
  rcases hC : matchTok 41 stB with stC | e | -
  case err => rw [hC] at h; simp at h
  case fuel => rw [hC] at h; simp at h
  rw [hC] at h
  simp only [Out.bind_ok] at h
  rcases hD : matchTok 123 stC with stD | e | -
  case err => rw [hD] at h; simp at h
  case fuel => rw [hD] at h; simp at h
  rw [hD] at h
  simp only [Out.bind_ok] at h
  rcases hE : mainSkip f (stD.push [iIMM, 42, iLEV]).lex with ls | e | -
  case err => rw [hE] at h; simp at h
  case fuel => rw [hE] at h; simp at h
  rw [hE] at h
  simp only [Out.bind_ok] at h
  have htextD : stD.text = st.text := by
    rw [matchTok_text 123 stC stD hD, matchTok_text 41 stB stC hC,
      matchTok_text 40 stA stB hB, hAtext]
  have hpushed : ({ stD.push [iIMM, 42, iLEV] with lex := ls } : ParseState).text =
      st.text ++ [iIMM, 42, iLEV] := by
    simp only [ParseState.push, htextD]
  split at h
  · have := doNext_text _ _ h
    rw [this, hpushed]
  · simp only [Out.pure_eq] at h
    injection h with h
    rw [← h, hpushed]

/-- C3 witness: on a state positioned at `(` with body `{;}`, the main
    branch emits exactly `[IMM, 42, LEV]` starting from an empty text
    segment. -/
theorem C3_witness_demo_main :
    (mainSpecial 50 1 (strBytes "main") demoMainState).map ParseState.text =
      Out.ok [iIMM, 42, iLEV] := by
  rcases h : mainSpecial 50 1 (strBytes "main") demoMainState with st' | e | -
  · have ht := C3_main_body_is_imm42_lev 50 1 (strBytes "main") demoMainState st' h
    simp only [Out.map, ht]
    rfl
  · have hok : (mainSpecial 50 1 (strBytes "main") demoMainState).isOk = true := rfl
    rw [h] at hok; simp [Out.isOk] at hok
  · have hok : (mainSpecial 50 1 (strBytes "main") demoMainState).isOk = true := rfl
    rw [h] at hok; simp [Out.isOk] at hok

/-- C4: the claim (and the spec) says a Number primary appends the two
    words `Imm, value` to the text segment; in fact the Num arm of
    `expression` (lib.rs 674-680) appends NOTHING — it records type Int,
    returns the literal value, and advances the lexer, so the text
    segment after the call equals the text segment before it. -/
theorem C4_number_primary_emits_nothing (f : Nat) (lvl : Int) (st : ParseState)
    (v : Int) (st' : ParseState) (htok : st.lex.token = TNum)
    (h : expression (f + 1) lvl st = Out.ok (v, st')) :
    st'.text = st.text ∧ v = st.lex.tokenVal := by
  simp only [expression] at h
  rw [if_pos htok] at h
  rcases hN : (st.setType tyINT).doNext with st2 | e | -
  case err => rw [hN] at h; simp at h
  case fuel => rw [hN] at h; simp at h
  rw [hN] at h
  simp only [Out.bind_ok, Out.pure_eq] at h
  injection h with h
  have hv : v = (st.setType tyINT).lex.tokenVal := (congrArg Prod.fst h).symm
  have hst : st' = st2 := (congrArg Prod.snd h).symm
  subst hst
  refine ⟨?_, hv⟩
  rw [doNext_text _ _ hN]
  rfl

/-- C4 witness: parsing the Number primary 7 returns value 7 and leaves
    the (empty) text segment unchanged — no `Imm, 7` is appended. -/
theorem C4_witness_number_seven :
    (expression 5 pAssign demoNumState).map (fun r => (r.1, r.2.text)) =
      Out.ok (7, []) := by
  rcases h : expression 5 pAssign demoNumState with r | e | -
  · obtain ⟨v, st'⟩ := r
    have hc := C4_number_primary_emits_nothing 4 pAssign demoNumState v st' rfl h
    simp only [Out.map]
    rw [hc.1, hc.2]
    rfl
  · have hok : (expression 5 pAssign demoNumState).isOk = true := rfl
    rw [h] at hok; simp [Out.isOk] at hok
  · have hok : (expression 5 pAssign demoNumState).isOk = true := rfl
    rw [h] at hok; simp [Out.isOk] at hok

/-- C6 counterexample: on the missing-token input `int main(` (EOF
    where `)` is expected), compile_and_run does NOT yield a negative
    exit code — match_token terminates the whole process via
    `process::exit(1)` (modelled by `Out.err`), whose exit status is the
    positive 1. -/
theorem C6_counterexample_exit_status_one :
    compileAndRun missingParenSrc [] = Out.err (CErr.expectedToken 1) ∧
    CErr.exitStatus (CErr.expectedToken 1) = 1 := ⟨rfl, rfl⟩

/-- C6 (amended): compile-time errors terminate the run immediately
    with no recovery and no output, but by killing the whole process
    with exit status 1 (every error site in lib.rs is
    `process::exit(1)`), not by returning a negative code from
    compile_and_run: shown for a missing expected token (`int main(`)
    and for an undefined identifier (`int x = y;`), and every modelled
    error carries process exit status 1. -/
theorem C6_compile_errors_kill_process :
    compileAndRun missingParenSrc [] = Out.err (CErr.expectedToken 1) ∧
    compileAndRun undefVarSrc [] = Out.err (CErr.undefinedVariable 1) ∧
    (∀ e : CErr, CErr.exitStatus e = 1) := ⟨rfl, rfl, fun _ => rfl⟩

set_option maxHeartbeats 2000000 in
/-- C7 counterexample: compiling `int x = !5; int main(){ return 0; }`
    yields the text `[PUSH, IMM, 0, EQ, IMM, 42, LEV]` with main entry
    4, and inside `run` on that program the 8th dispatch is a PUSH
    executed with sp = 0, after which sp = -1: the claimed invariant
    0 ≤ sp after every dispatch is violated in an actual run. -/
theorem C7_counterexample_sp_reaches_minus_one :
    (compilePipeline bangSrc).map (fun st => (st.text, st.lex.data)) =
      Out.ok ([iPUSH, iIMM, 0, iEQ, iIMM, 42, iLEV], []) ∧
    (compilePipeline bangSrc).map (fun st => mainEntryOf st.lex.symbols) = Out.ok 4 ∧
    (stepN [iPUSH, iIMM, 0, iEQ, iIMM, 42, iLEV] [] 7 (initRSt 4 0 "")).map RSt.sp =
      some 0 ∧
    (stepN [iPUSH, iIMM, 0, iEQ, iIMM, 42, iLEV] [] 8 (initRSt 4 0 "")).map RSt.sp =
      some (-1) := ⟨rfl, rfl, rfl, rfl⟩

set_option maxHeartbeats 2000000 in
/-- Dispatch preserves the weakened stack-pointer lower bound: every
    instruction that continues execution leaves sp ≥ -1 provided
    sp ≥ -1 before it (instructions that move sp down check sp ≥ 0
    first and move it down by exactly one; ENT checks the post-reserve
    value; LEV sets sp to the checked bp; ADJ checks the sum). -/
theorem dispatch_sp_lower (text data : List Int) (op : Int) (s s' : RSt)
    (hsp : -1 ≤ s.sp) (h : dispatch text data op s = Sum.inr s') : -1 ≤ s'.sp := by
  unfold dispatch at h
  rcases eq_or_ne op iLEA with h0 | h0
  · rw [if_pos h0] at h
    (try dsimp only at h)
    repeat' split at h
    all_goals
      first
        | exact Sum.noConfusion h
        | (injection h with h; subst h; dsimp only; omega)
  rw [if_neg h0] at h
  rcases eq_or_ne op iIMM with h1 | h1
  · rw [if_pos h1] at h
    (try dsimp only at h)
    repeat' split at h
    all_goals
      first
        | exact Sum.noConfusion h
        | (injection h with h; subst h; dsimp only; omega)
  rw [if_neg h1] at h
  rcases eq_or_ne op iJMP with h2 | h2
  · rw [if_pos h2] at h
    (try dsimp only at h)
    repeat' split at h
    all_goals
      first
        | exact Sum.noConfusion h
        | (injection h with h; subst h; dsimp only; omega)
  rw [if_neg h2] at h
  rcases eq_or_ne op iJSR with h3 | h3
  · rw [if_pos h3] at h
    (try dsimp only at h)
    repeat' split at h
    all_goals
      first
        | exact Sum.noConfusion h
        | (injection h with h; subst h; dsimp only; omega)
  rw [if_neg h3] at h
  rcases eq_or_ne op iBZ with h4 | h4
  · rw [if_pos h4] at h
    (try dsimp only at h)
    repeat' split at h
    all_goals
      first
        | exact Sum.noConfusion h
        | (injection h with h; subst h; dsimp only; omega)
  rw [if_neg h4] at h
  rcases eq_or_ne op iBNZ with h5 | h5
  · rw [if_pos h5] at h
    (try dsimp only at h)
    repeat' split at h
    all_goals
      first
        | exact Sum.noConfusion h
        | (injection h with h; subst h; dsimp only; omega)
  rw [if_neg h5] at h
  rcases eq_or_ne op iENT with h6 | h6
  · rw [if_pos h6] at h
    (try dsimp only at h)
    repeat' split at h
    all_goals
      first
        | exact Sum.noConfusion h
        | (injection h with h; subst h; dsimp only; omega)
  rw [if_neg h6] at h
  rcases eq_or_ne op iADJ with h7 | h7
  · rw [if_pos h7] at h
    (try dsimp only at h)
    repeat' split at h
    all_goals
      first
        | exact Sum.noConfusion h
        | (injection h with h; subst h; dsimp only; omega)
  rw [if_neg h7] at h
  rcases eq_or_ne op iLEV with h8 | h8
  · rw [if_pos h8] at h
    (try dsimp only at h)
    repeat' split at h
    all_goals
      first
        | exact Sum.noConfusion h
        | (injection h with h; subst h; dsimp only; omega)
  rw [if_neg h8] at h
  rcases eq_or_ne op iEXIT with h9 | h9
  · rw [if_pos h9] at h
    (try dsimp only at h)
    repeat' split at h
    all_goals
      first
        | exact Sum.noConfusion h
        | (injection h with h; subst h; dsimp only; omega)
  rw [if_neg h9] at h
  rcases eq_or_ne op iLI with h10 | h10
  · rw [if_pos h10] at h
    (try dsimp only at h)
    repeat' split at h
    all_goals
      first
        | exact Sum.noConfusion h
        | (injection h with h; subst h; dsimp only; omega)
  rw [if_neg h10] at h
  rcases eq_or_ne op iLC with h11 | h11
  · rw [if_pos h11] at h
    (try dsimp only at h)
    repeat' split at h
    all_goals
      first
        | exact Sum.noConfusion h
        | (injection h with h; subst h; dsimp only; omega)
  rw [if_neg h11] at h
  rcases eq_or_ne op iSI with h12 | h12
  · rw [if_pos h12] at h
    (try dsimp only at h)
    repeat' split at h
    all_goals
      first
        | exact Sum.noConfusion h
        | (injection h with h; subst h; dsimp only; omega)
  rw [if_neg h12] at h
  rcases eq_or_ne op iSC with h13 | h13
  · rw [if_pos h13] at h
    (try dsimp only at h)
    repeat' split at h
    all_goals
      first
        | exact Sum.noConfusion h
        | (injection h with h; subst h; dsimp only; omega)
  rw [if_neg h13] at h
  rcases eq_or_ne op iPUSH with h14 | h14
  · rw [if_pos h14] at h
    (try dsimp only at h)
    repeat' split at h
    all_goals
      first
        | exact Sum.noConfusion h
        | (injection h with h; subst h; dsimp only; omega)
  rw [if_neg h14] at h
  rcases eq_or_ne op iOR with h15 | h15
  · rw [if_pos h15] at h
    (try dsimp only at h)
    repeat' split at h
    all_goals
      first
        | exact Sum.noConfusion h
        | (injection h with h; subst h; dsimp only; omega)
  rw [if_neg h15] at h
  rcases eq_or_ne op iXOR with h16 | h16
  · rw [if_pos h16] at h
    (try dsimp only at h)
    repeat' split at h
    all_goals
      first
        | exact Sum.noConfusion h
        | (injection h with h; subst h; dsimp only; omega)
  rw [if_neg h16] at h
  rcases eq_or_ne op iAND with h17 | h17
  · rw [if_pos h17] at h
    (try dsimp only at h)
    repeat' split at h
    all_goals
      first
        | exact Sum.noConfusion h
        | (injection h with h; subst h; dsimp only; omega)
  rw [if_neg h17] at h
  rcases eq_or_ne op iEQ with h18 | h18
  · rw [if_pos h18] at h
    (try dsimp only at h)
    repeat' split at h
    all_goals
      first
        | exact Sum.noConfusion h
        | (injection h with h; subst h; dsimp only; omega)
  rw [if_neg h18] at h
  rcases eq_or_ne op iNE with h19 | h19
  · rw [if_pos h19] at h
    (try dsimp only at h)
    repeat' split at h
    all_goals
      first
        | exact Sum.noConfusion h
        | (injection h with h; subst h; dsimp only; omega)
  rw [if_neg h19] at h
  rcases eq_or_ne op iLT with h20 | h20
  · rw [if_pos h20] at h
    (try dsimp only at h)
    repeat' split at h
    all_goals
      first
        | exact Sum.noConfusion h
        | (injection h with h; subst h; dsimp only; omega)
  rw [if_neg h20] at h
  rcases eq_or_ne op iGT with h21 | h21
  · rw [if_pos h21] at h
    (try dsimp only at h)
    repeat' split at h
    all_goals
      first
        | exact Sum.noConfusion h
        | (injection h with h; subst h; dsimp only; omega)
  rw [if_neg h21] at h
  rcases eq_or_ne op iLE with h22 | h22
  · rw [if_pos h22] at h
    (try dsimp only at h)
    repeat' split at h
    all_goals
      first
        | exact Sum.noConfusion h
        | (injection h with h; subst h; dsimp only; omega)
  rw [if_neg h22] at h
  rcases eq_or_ne op iGE with h23 | h23
  · rw [if_pos h23] at h
    (try dsimp only at h)
    repeat' split at h
    all_goals
      first
        | exact Sum.noConfusion h
        | (injection h with h; subst h; dsimp only; omega)
  rw [if_neg h23] at h
  rcases eq_or_ne op iSHL with h24 | h24
  · rw [if_pos h24] at h
    (try dsimp only at h)
    repeat' split at h
    all_goals
      first
        | exact Sum.noConfusion h
        | (injection h with h; subst h; dsimp only; omega)
  rw [if_neg h24] at h
  rcases eq_or_ne op iSHR with h25 | h25
  · rw [if_pos h25] at h
    (try dsimp only at h)
    repeat' split at h
    all_goals
      first
        | exact Sum.noConfusion h
        | (injection h with h; subst h; dsimp only; omega)
  rw [if_neg h25] at h
  rcases eq_or_ne op iADD with h26 | h26
  · rw [if_pos h26] at h
    (try dsimp only at h)
    repeat' split at h
    all_goals
      first
        | exact Sum.noConfusion h
        | (injection h with h; subst h; dsimp only; omega)
  rw [if_neg h26] at h
  rcases eq_or_ne op iSUB with h27 | h27
  · rw [if_pos h27] at h
    (try dsimp only at h)
    repeat' split at h
    all_goals
      first
        | exact Sum.noConfusion h
        | (injection h with h; subst h; dsimp only; omega)
  rw [if_neg h27] at h
  rcases eq_or_ne op iMUL with h28 | h28
  · rw [if_pos h28] at h
    (try dsimp only at h)
    repeat' split at h
    all_goals
      first
        | exact Sum.noConfusion h
        | (injection h with h; subst h; dsimp only; omega)
  rw [if_neg h28] at h
  rcases eq_or_ne op iDIV with h29 | h29
  · rw [if_pos h29] at h
    (try dsimp only at h)
    repeat' split at h
    all_goals
      first
        | exact Sum.noConfusion h
        | (injection h with h; subst h; dsimp only; omega)
  rw [if_neg h29] at h
  rcases eq_or_ne op iMOD with h30 | h30
  · rw [if_pos h30] at h
    (try dsimp only at h)
    repeat' split at h
    all_goals
      first
        | exact Sum.noConfusion h
        | (injection h with h; subst h; dsimp only; omega)
  rw [if_neg h30] at h
  rcases eq_or_ne op iPRINTF with h31 | h31
  · rw [if_pos h31] at h
    (try dsimp only at h)
    repeat' split at h
    all_goals
      first
        | exact Sum.noConfusion h
        | (injection h with h; subst h; dsimp only; omega)
  rw [if_neg h31] at h
  exact Sum.noConfusion h

/-- C7 (amended): every stack access in `run` is guarded by an explicit
    bounds check, and the register invariant that actually holds after
    every continuing dispatch of the VM loop is the weaker -1 ≤ sp
    (assuming -1 ≤ sp beforehand); the claimed 0 ≤ sp fails (sp = -1 is
    reached by a PUSH at sp = 0, C7 counterexample) and no range
    invariant is maintained for bp, which LEV reloads from the stack
    unchecked. -/
theorem C7_sp_lower_bound_invariant (text data : List Int) (s s' : RSt)
    (hsp : -1 ≤ s.sp) (h : loopIter text data s = Sum.inr s') : -1 ≤ s'.sp := by
  unfold loopIter at h
  split_ifs at h <;>
    first
      | (exact Sum.noConfusion h)
      | (dsimp only at h
         exact dispatch_sp_lower _ _ _ _ _ (by exact hsp) h)

/-- C7 witness: the invariant theorem applied to the first dispatch of
    the `[IMM, 42, LEV]` program from the standard initial state. -/
theorem C7_witness_first_dispatch :
    Sum.elim (fun _ => False) (fun s' => -1 ≤ s'.sp)
      (loopIter [iIMM, 42, iLEV] [] (initRSt 0 0 "")) := by
  rcases h : loopIter [iIMM, 42, iLEV] [] (initRSt 0 0 "") with r | s'
  · have hr : (loopIter [iIMM, 42, iLEV] [] (initRSt 0 0 "")).isRight = true := rfl
    rw [h] at hr; simp at hr
  · simp only [Sum.elim]
    exact C7_sp_lower_bound_invariant [iIMM, 42, iLEV] [] (initRSt 0 0 "") s'
      (by norm_num [initRSt]) h

/-- C8 counterexample: an unterminated block comment does NOT fail
    lexically — `next` on the source `/*` silently consumes the comment
    to end of source and reports the end-of-source token 0 with no
    error. -/
theorem C8_counterexample_block_comment_accepted :
    (next (freshState "/*").lex).map LexState.token = Out.ok 0 := rfl

/-- C8 (amended): an unterminated string literal and an unterminated
    character literal each make `next` fail with a lexical error
    carrying the current line number (the character-literal case below
    sits on line 3 after two newlines and reports line 3), but an
    unterminated block comment is not an error: the lexer treats end of
    source as the end of the comment. -/
theorem C8_unterminated_literals :
    next (freshState "\n\n'a").lex = Out.err (CErr.unterminatedChar 3) ∧
    next (freshState "\"abc").lex = Out.err (CErr.unterminatedString 1) ∧
    (next (freshState "/*").lex).map LexState.token = Out.ok 0 := ⟨rfl, rfl, rfl⟩

set_option maxHeartbeats 2000000 in
/-- C9: for each of the sixteen arithmetic/logical/comparison opcodes
    (OR, XOR, AND, EQ, NE, LT, GT, LE, GE, SHL, SHR, ADD, SUB, MUL,
    DIV, MOD — codes 14 through 29), whenever the dispatch completes
    without an error return, sp after execution is exactly sp before
    plus one word. -/
theorem C9_arith_ops_pop_one (text data : List Int) (op : Int) (s s' : RSt)
    (hop : op = iOR ∨ op = iXOR ∨ op = iAND ∨ op = iEQ ∨ op = iNE ∨ op = iLT ∨
      op = iGT ∨ op = iLE ∨ op = iGE ∨ op = iSHL ∨ op = iSHR ∨ op = iADD ∨
      op = iSUB ∨ op = iMUL ∨ op = iDIV ∨ op = iMOD)
    (h : dispatch text data op s = Sum.inr s') : s'.sp = s.sp + 1 := by
  unfold dispatch at h
  rcases hop with h1 | h1 | h1 | h1 | h1 | h1 | h1 | h1 | h1 | h1 | h1 | h1 | h1 | h1 | h1 | h1 <;>
    subst h1 <;>
    norm_num [iLEA, iIMM, iJMP, iJSR, iBZ, iBNZ, iENT, iADJ, iLEV, iEXIT, iLI, iLC,
      iSI, iSC, iPUSH, iOR, iXOR, iAND, iEQ, iNE, iLT, iGT, iLE, iGE, iSHL, iSHR,
      iADD, iSUB, iMUL, iDIV, iMOD, iPRINTF] at h <;>
    split_ifs at h <;>
    first
      | (exact Sum.noConfusion h)
      | (injection h with h; subst h; rfl)

/-- C9 witness: an ADD dispatched at sp = 5 continues with sp = 6. -/
theorem C9_witness_add :
    Sum.elim (fun _ => False) (fun s' => s'.sp = demoRSt.sp + 1)
      (dispatch [] [] iADD demoRSt) := by
  rcases h : dispatch [] [] iADD demoRSt with r | s'
  · have hr : (dispatch [] [] iADD demoRSt).isRight = true := rfl
    rw [h] at hr; simp at hr
  · simp only [Sum.elim]
    exact C9_arith_ops_pop_one [] [] iADD demoRSt s'
      (by norm_num [iOR, iXOR, iAND, iEQ, iNE, iLT, iGT, iLE, iGE, iSHL, iSHR, iADD]) h

/-- C10 counterexample: for `-` immediately followed by the hex literal
    `0x1`, the lexer consumes the sign as part of the Number token but
    does NOT negate the value: the token stream of `-0x1` is a single
    Number with token_val 1, not -1 as the claim requires. -/
theorem C10_counterexample_hex_sign_dropped :
    (next (freshState "-0x1").lex).map (fun ls => (ls.token, ls.tokenVal)) =
      Out.ok (128, 1) := rfl

/-- C10 (amended): a `-` immediately followed by a digit or a dot is
    always consumed as part of the single numeric literal that follows:
    `next` enters the number branch, whose every normal outcome is a
    Number or Float token (never a `-` operator token) and whose only
    error is the invalid-float process exit.  The negation of
    token_value claimed by the spec happens only for plain decimal
    integer literals (no hex prefix, no dot): there token_value is
    exactly the negation of the nonnegative scanned digit value, so
    `1-2` lexes as Number(1), Number(-2) with no subtraction operator
    between them.  For a hex literal the sign is consumed but the
    nonnegative hex value is NOT negated, and for a literal containing
    a dot the token is Float whose token_value is a data-segment index,
    never a negated integer: `-1.5` lexes as Float with index 0, and
    `-.` kills the process as an invalid float. -/
theorem C10_minus_digit_folding (ls : LexState)
    (h45 : at_ ls.src ls.pos = 45)
    (hlt : ls.pos + 1 < ls.src.length)
    (hfd : isDigitB (at_ ls.src (ls.pos + 1)) = true ∨ at_ ls.src (ls.pos + 1) = 46) :
    next ls = lexNumber ls ∧
    (∀ ls', lexNumber ls = Out.ok ls' → ls'.token = TNum ∨ ls'.token = TFloat) ∧
    (∀ e, lexNumber ls = Out.err e → e = CErr.invalidFloat ls.line) ∧
    (¬(at_ ls.src (ls.pos + 1) = 48 ∧ ls.pos + 1 + 1 < ls.src.length ∧
        (at_ ls.src (ls.pos + 1 + 1) = 120 ∨ at_ ls.src (ls.pos + 1 + 1) = 88)) →
      (decScan ls.src (ls.pos + 1) 0 false false []).2.2.1 = false →
      lexNumber ls = Out.ok { ls with
        tokenVal := -(decScan ls.src (ls.pos + 1) 0 false false []).1,
        token := TNum,
        pos := (decScan ls.src (ls.pos + 1) 0 false false []).2.1 } ∧
      0 ≤ (decScan ls.src (ls.pos + 1) 0 false false []).1) ∧
    ((at_ ls.src (ls.pos + 1) = 48 ∧ ls.pos + 1 + 1 < ls.src.length ∧
        (at_ ls.src (ls.pos + 1 + 1) = 120 ∨ at_ ls.src (ls.pos + 1 + 1) = 88)) →
      lexNumber ls = Out.ok { ls with
        tokenVal := (hexScan ls.src (ls.pos + 1 + 2) 0).1,
        pos := (hexScan ls.src (ls.pos + 1 + 2) 0).2, token := TNum } ∧
      0 ≤ (hexScan ls.src (ls.pos + 1 + 2) 0).1) ∧
    (¬(at_ ls.src (ls.pos + 1) = 48 ∧ ls.pos + 1 + 1 < ls.src.length ∧
        (at_ ls.src (ls.pos + 1 + 1) = 120 ∨ at_ ls.src (ls.pos + 1 + 1) = 88)) →
      (decScan ls.src (ls.pos + 1) 0 false false []).2.2.1 = true →
      ∀ ls', lexNumber ls = Out.ok ls' →
        ls'.token = TFloat ∧ ls'.tokenVal = (ls.data.length : Int)) ∧
    lexTokens 10 (freshState "1-2").lex = Out.ok [(128, 1), (128, -2)] ∧
    (next (freshState "-1.5").lex).map (fun l => (l.token, l.tokenVal)) =
      Out.ok (257, 0) ∧
    next (freshState "-.").lex = Out.err (CErr.invalidFloat 1) := by
  have hpos : ls.pos < ls.src.length := by omega
  have hLN := lexNumber_minus ls h45
  have hirr : ((decScan ls.src (ls.pos + 1) 0 false false [45]).1,
      (decScan ls.src (ls.pos + 1) 0 false false [45]).2.1,
      (decScan ls.src (ls.pos + 1) 0 false false [45]).2.2.1) =
      ((decScan ls.src (ls.pos + 1) 0 false false []).1,
       (decScan ls.src (ls.pos + 1) 0 false false []).2.1,
       (decScan ls.src (ls.pos + 1) 0 false false []).2.2.1) :=
    decScanGo_buf_irrel ls.src (ls.src.length - (ls.pos + 1)) (ls.pos + 1) 0 false false [45] []
  have hv : (decScan ls.src (ls.pos + 1) 0 false false [45]).1 =
      (decScan ls.src (ls.pos + 1) 0 false false []).1 :=
    congrArg (fun t : Int × Nat × Bool => t.1) hirr
  have hp : (decScan ls.src (ls.pos + 1) 0 false false [45]).2.1 =
      (decScan ls.src (ls.pos + 1) 0 false false []).2.1 :=
    congrArg (fun t : Int × Nat × Bool => t.2.1) hirr
  have hf : (decScan ls.src (ls.pos + 1) 0 false false [45]).2.2.1 =
      (decScan ls.src (ls.pos + 1) 0 false false []).2.2.1 :=
    congrArg (fun t : Int × Nat × Bool => t.2.2) hirr
  refine ⟨?_, ?_, ?_, ?_, ?_, ?_, rfl, rfl, rfl⟩
  · -- next takes the number branch
    simp only [next]
    rw [skipWs_minus ls hpos h45]
    have d1 : isDigitB 45 = false := rfl
    have d2 : isAlphaB 45 = false := rfl
    have d3 : isDigitB 46 = false := rfl
    rcases hfd with h | h <;> simp [d1, d2, d3, hlt, h]
  · intro ls' h
    rw [hLN] at h
    split_ifs at h with h1 h2 h3 <;>
      first
        | exact Out.noConfusion h
        | (injection h with h; subst h; first | (left; rfl) | (right; rfl))
  · intro e h
    rw [hLN] at h
    split_ifs at h with h1 h2 h3 <;>
      first
        | exact Out.noConfusion h
        | (injection h with h; exact h.symm)
  · intro hx hflat
    have h45f : (decScan ls.src (ls.pos + 1) 0 false false [45]).2.2.1 = false :=
      hf.trans hflat
    refine ⟨?_, decScanGo_nonneg ls.src (ls.src.length - (ls.pos + 1)) (ls.pos + 1) 0
      false false [] le_rfl⟩
    rw [hLN, if_neg hx, if_neg (by simp [h45f]), hv, hp]
  · intro hx
    refine ⟨?_, hexScanGo_nonneg ls.src (ls.src.length - (ls.pos + 1 + 2)) (ls.pos + 1 + 2) 0
      le_rfl⟩
    rw [hLN, if_pos hx]
  · intro hx hfl ls' h
    have h45f : (decScan ls.src (ls.pos + 1) 0 false false [45]).2.2.1 = true :=
      hf.trans hfl
    rw [hLN, if_neg hx, if_pos h45f] at h
    split_ifs at h with h2 <;>
      first
        | exact Out.noConfusion h
        | (injection h with h; subst h; exact ⟨rfl, rfl⟩)

/-- C10 witness: the folding theorem applied to the source `-2`: the
    lexer returns a single Number token with the negated value -2. -/
theorem C10_witness_minus_two :
    next (freshState "-2").lex =
      Out.ok { (freshState "-2").lex with tokenVal := -2, token := TNum, pos := 2 } := by
  have h := C10_minus_digit_folding (freshState "-2").lex rfl (by decide) (Or.inl rfl)
  obtain ⟨hnext, -, -, hdec, -, -, -, -, -⟩ := h
  obtain ⟨heq, -⟩ := hdec (by decide) rfl
  rw [hnext, heq]
  rfl

end c4
